import Mathlib

/-!
# Verification of the VietCMC moderation backbone

Shallow embedding of the Python services of the `vietcmc` repository:
the API front-end's HMAC verification and submit handler, the moderation
worker's batch finalization, the webhook dispatcher's retry loop and
payload construction, and the three-layer Vietnamese text classifier
(Layer A normalizer, Layer B rule checker, final combination).

Python strings are modelled as `List Char` (sequences of Unicode scalar
values, as in CPython).  Bytes are `Nat` values below 256.  Machine
arithmetic in SHA-256 is `Nat` arithmetic taken modulo `2 ^ 32`
explicitly.  Fallible code returns `Except`.  Recursive scanners take an
explicit fuel argument so every definition is structural and reduces in
the kernel.
-/

namespace VietCMC

/-- Convert a Lean string literal to the `List Char` representation used
throughout this development. -/
def pstr (s : String) : List Char := s.data

/-- UTF-8 encoding of a sequence of Unicode scalar values, as performed by
Python's `str.encode('utf-8')`. -/
def utf8Encode (s : List Char) : List Nat :=
  s.flatMap fun c =>
    let n := c.toNat
    if n < 0x80 then [n]
    else if n < 0x800 then [0xC0 + n / 64, 0x80 + n % 64]
    else if n < 0x10000 then [0xE0 + n / 4096, 0x80 + (n / 64) % 64, 0x80 + n % 64]
    else [0xF0 + n / 262144, 0x80 + (n / 4096) % 64, 0x80 + (n / 64) % 64, 0x80 + n % 64]

/-! ## SHA-256 and HMAC-SHA256

Executable port of the FIPS 180-4 SHA-256 function used by the source via
`hashlib.sha256`, over byte lists, with 32-bit words as `Nat` modulo
`2 ^ 32`.  No theorem in this file unfolds the compression function; it is
here so that `hmac.new(secret, body, hashlib.sha256).hexdigest()` from
`app/utils/auth.py` has a faithful executable meaning. -/

namespace SHA256

def M32 : Nat := 2 ^ 32

def K : List Nat :=
  [1116352408, 1899447441, 3049323471, 3921009573, 961987163, 1508970993,
   2453635748, 2870763221, 3624381080, 310598401, 607225278, 1426881987,
   1925078388, 2162078206, 2614888103, 3248222580, 3835390401, 4022224774,
   264347078, 604807628, 770255983, 1249150122, 1555081692, 1996064986,
   2554220882, 2821834349, 2952996808, 3210313671, 3336571891, 3584528711,
   113926993, 338241895, 666307205, 773529912, 1294757372, 1396182291,
   1695183700, 1986661051, 2177026350, 2456956037, 2730485921, 2820302411,
   3259730800, 3345764771, 3516065817, 3600352804, 4094571909, 275423344,
   430227734, 506948616, 659060556, 883997877, 958139571, 1322822218,
   1537002063, 1747873779, 1955562222, 2024104815, 2227730452, 2361852424,
   2428436474, 2756734187, 3204031479, 3329325298]

def H0 : List Nat :=
  [1779033703, 3144134277, 1013904242, 2773480762,
   1359893119, 2600822924, 528734635, 1541459225]

/-- Right rotation of a 32-bit word. -/
def rotr (n x : Nat) : Nat := (x / 2 ^ n + (x % 2 ^ n) * 2 ^ (32 - n)) % M32

/-- Right shift of a 32-bit word. -/
def shr (n x : Nat) : Nat := x / 2 ^ n

def bsig0 (x : Nat) : Nat := Nat.xor (rotr 2 x) (Nat.xor (rotr 13 x) (rotr 22 x))
def bsig1 (x : Nat) : Nat := Nat.xor (rotr 6 x) (Nat.xor (rotr 11 x) (rotr 25 x))
def ssig0 (x : Nat) : Nat := Nat.xor (rotr 7 x) (Nat.xor (rotr 18 x) (shr 3 x))
def ssig1 (x : Nat) : Nat := Nat.xor (rotr 17 x) (Nat.xor (rotr 19 x) (shr 10 x))

def ch (x y z : Nat) : Nat := Nat.xor (Nat.land x y) (Nat.land (Nat.xor x 0xffffffff) z)
def maj (x y z : Nat) : Nat := Nat.xor (Nat.land x y) (Nat.xor (Nat.land x z) (Nat.land y z))

/-- SHA-256 padding: append `0x80`, zeros to 56 mod 64, then the bit length
as 8 big-endian bytes. -/
def pad (msg : List Nat) : List Nat :=
  let L := msg.length
  let zeros := (64 + 55 - (L % 64)) % 64
  let bitLen := L * 8
  msg ++ [0x80] ++ List.replicate zeros 0 ++
    (List.range 8).map (fun i => bitLen / 2 ^ (8 * (7 - i)) % 256)

/-- Big-endian 32-bit words from bytes (groups of 4). -/
def toWords (fuel : Nat) (bytes : List Nat) : List Nat :=
  match fuel, bytes with
  | 0, _ => []
  | _, [] => []
  | f + 1, a :: b :: c :: d :: rest => (a * 16777216 + b * 65536 + c * 256 + d) :: toWords f rest
  | _, _ => []

/-- Message-schedule extension from 16 to 64 words. -/
def extend (fuel : Nat) (w : List Nat) : List Nat :=
  match fuel with
  | 0 => w
  | f + 1 =>
    if w.length ≥ 64 then w
    else
      let n := w.length
      let g := fun i => w.getD i 0
      extend f (w ++ [(ssig1 (g (n - 2)) + g (n - 7) + ssig0 (g (n - 15)) + g (n - 16)) % M32])

/-- One round of the compression loop. -/
def round (st : List Nat) (kw : Nat × Nat) : List Nat :=
  match st with
  | [a, b, c, d, e, f, g, h] =>
    let t1 := (h + bsig1 e + ch e f g + kw.1 + kw.2) % M32
    let t2 := (bsig0 a + maj a b c) % M32
    [(t1 + t2) % M32, a, b, c, (d + t1) % M32, e, f, g]
  | _ => st

/-- Process one 64-byte block. -/
def block (h : List Nat) (bytes : List Nat) : List Nat :=
  let w := extend 64 (toWords 16 bytes)
  let st := (K.zip w).foldl round h
  (h.zip st).map fun p => (p.1 + p.2) % M32

/-- Split into 64-byte chunks (the padded message length is a multiple
of 64, so the final chunk is full). -/
def chunks (fuel : Nat) (bytes : List Nat) : List (List Nat) :=
  match fuel, bytes with
  | 0, _ => []
  | _, [] => []
  | f + 1, bs => bs.take 64 :: chunks f (bs.drop 64)

/-- SHA-256 digest of a byte list, as 32 bytes. -/
def sha256 (msg : List Nat) : List Nat :=
  let padded := pad msg
  let final := (chunks (padded.length + 1) padded).foldl block H0
  final.flatMap fun wrd => [wrd / 16777216 % 256, wrd / 65536 % 256, wrd / 256 % 256, wrd % 256]

end SHA256

/-- HMAC-SHA256 over byte lists, as computed by `hmac.new(key, msg,
hashlib.sha256).digest()`. -/
def hmacSha256 (key msg : List Nat) : List Nat :=
  let k0 := if key.length > 64 then SHA256.sha256 key else key
  let kp := k0 ++ List.replicate (64 - k0.length) 0
  let ipad := kp.map fun b => Nat.xor b 0x36
  let opad := kp.map fun b => Nat.xor b 0x5c
  SHA256.sha256 (opad ++ SHA256.sha256 (ipad ++ msg))

/-- Lowercase hexadecimal digit. -/
def hexDigit (n : Nat) : Char :=
  if n < 10 then Char.ofNat (48 + n) else Char.ofNat (87 + n)

/-- Lowercase hex string of a byte list, as returned by `.hexdigest()`. -/
def hexOfBytes (bs : List Nat) : List Char :=
  bs.flatMap fun b => [hexDigit (b / 16), hexDigit (b % 16)]

/-- `hmac.new(secret.encode('utf-8'), body, hashlib.sha256).hexdigest()`
from `app/utils/auth.py`. -/
def hmacHexdigest (secret : List Char) (body : List Nat) : List Char :=
  hexOfBytes (hmacSha256 (utf8Encode secret) body)

/-! ## HMAC signature verification (`app/utils/auth.py`,
`app/middleware/auth.py`, `app/api/submit.py`)

`hmac.compare_digest` on two `str` arguments requires both to be ASCII-only
and raises `TypeError` otherwise; on ASCII strings it is the constant-time
comparison that accumulates the bitwise OR of the XOR of every character
pair (CPython `_tscmp`), returning false on a length mismatch.  The
`TypeError` propagates out of `verify_hmac_signature` and
`verify_request_signature` (neither catches it) into `submit_job`'s
`except Exception` handler, which answers 500 `INTERNAL_ERROR`. -/

/-- Python exceptions that escape the modelled code. -/
inductive PyErr
  | typeError
  | attributeError
deriving DecidableEq

/-- All characters are ASCII (`< 128`), the precondition of
`hmac.compare_digest` on `str` arguments. -/
def isAsciiStr (s : List Char) : Bool := s.all fun c => c.toNat < 128

/-- `hmac.compare_digest(a, b)` on `str` arguments: `TypeError` unless both
are ASCII; otherwise a constant-time comparison that folds the bitwise OR
of XORed character codes over the whole string (no early return). -/
def compare_digest (a b : List Char) : Except PyErr Bool :=
  if isAsciiStr a && isAsciiStr b then
    .ok (a.length == b.length &&
      ((a.zip b).foldl (fun acc p => acc ||| (p.1.toNat ^^^ p.2.toNat)) 0 == 0))
  else .error .typeError

/-- The literal header tag `"sha256="`. -/
def SIG_TAG : List Char := pstr "sha256="

/-- `verify_hmac_signature(secret, body, signature)` from
`app/utils/auth.py` lines 32-58: reject unless the header starts with
`sha256=`, strip the first 7 characters, compare against the lowercase
hex HMAC-SHA256 digest with `hmac.compare_digest`. -/
def verify_hmac_signature (secret : List Char) (body : List Nat)
    (signature : List Char) : Except PyErr Bool :=
  if ¬ SIG_TAG.isPrefixOf signature then .ok false
  else compare_digest (signature.drop 7) (hmacHexdigest secret body)

/-- Outcome of the signature check as seen by the `POST /submit` client. -/
inductive AuthOutcome
  | accepted
  | rejected (httpStatus : Nat) (code : String)
deriving DecidableEq

/-- `verify_request_signature` (`app/middleware/auth.py` lines 62-92) as
run under `submit_job`'s exception handler (`app/api/submit.py` lines
89-100): a missing header or a `False` verdict raises `HTTPException`
403 `INVALID_SIGNATURE`, which is re-raised as-is; any other exception
(the `TypeError` from `compare_digest`) falls to the generic handler and
becomes 500 `INTERNAL_ERROR`. -/
def submit_signature_outcome (secret : List Char) (body : List Nat)
    (sigHeader : Option (List Char)) : AuthOutcome :=
  match sigHeader with
  | none => .rejected 403 "INVALID_SIGNATURE"
  | some sig =>
    match verify_hmac_signature secret body sig with
    | .ok true => .accepted
    | .ok false => .rejected 403 "INVALID_SIGNATURE"
    | .error _ => .rejected 500 "INTERNAL_ERROR"

/-! ### Helper lemmas for C1 -/

theorem lor_eq_zero_iff (a b : Nat) : a ||| b = 0 ↔ a = 0 ∧ b = 0 := by
  constructor
  · intro h
    constructor
    · apply Nat.eq_of_testBit_eq
      intro i
      have h' := congrArg (fun n => Nat.testBit n i) h
      simp only [Nat.testBit_lor, Nat.zero_testBit, Bool.or_eq_false_iff] at h'
      simp [h'.1]
    · apply Nat.eq_of_testBit_eq
      intro i
      have h' := congrArg (fun n => Nat.testBit n i) h
      simp only [Nat.testBit_lor, Nat.zero_testBit, Bool.or_eq_false_iff] at h'
      simp [h'.2]
  · rintro ⟨rfl, rfl⟩; rfl

theorem tscmp_fold_ne_zero (l : List (Char × Char)) (acc : Nat) (h : acc ≠ 0) :
    l.foldl (fun acc p => acc ||| (p.1.toNat ^^^ p.2.toNat)) acc ≠ 0 := by
  induction l generalizing acc with
  | nil => exact h
  | cons p rest ih =>
    apply ih
    intro hzero
    exact h ((lor_eq_zero_iff _ _).mp hzero).1

theorem tscmp_zip_eq_zero_iff (a b : List Char) (hlen : a.length = b.length) :
    (a.zip b).foldl (fun acc p => acc ||| (p.1.toNat ^^^ p.2.toNat)) 0 = 0 ↔ a = b := by
  induction a generalizing b with
  | nil =>
    cases b with
    | nil => simp [List.zip]
    | cons c cs => simp at hlen
  | cons x xs ih =>
    cases b with
    | nil => simp at hlen
    | cons y ys =>
      simp only [List.length_cons, Nat.add_right_cancel_iff] at hlen
      simp only [List.zip_cons_cons, List.foldl_cons]
      by_cases hxy : x = y
      · subst hxy
        simp only [Nat.xor_self, Nat.zero_or]
        rw [ih ys hlen]
        simp
      · constructor
        · intro h
          exfalso
          apply tscmp_fold_ne_zero (xs.zip ys) _ _ h
          simp only [Nat.zero_or]
          intro h0
          apply hxy
          have : x.toNat = y.toNat := Nat.xor_eq_zero.mp h0
          have := congrArg Char.ofNat this
          rwa [Char.ofNat_toNat, Char.ofNat_toNat] at this
        · intro h
          exact absurd (List.cons.injEq .. ▸ h).1 hxy

theorem compare_digest_ok_true_iff (a b : List Char) :
    compare_digest a b = .ok true ↔ isAsciiStr a ∧ isAsciiStr b ∧ a = b := by
  unfold compare_digest
  by_cases ha : isAsciiStr a
  · by_cases hb : isAsciiStr b
    · simp only [ha, hb, Bool.and_self, if_true, Except.ok.injEq, true_and]
      constructor
      · intro h
        rw [Bool.and_eq_true, beq_iff_eq, beq_iff_eq] at h
        exact (tscmp_zip_eq_zero_iff a b h.1).mp h.2
      · rintro rfl
        simp [tscmp_zip_eq_zero_iff a a rfl]
    · simp [ha, hb]
  · simp [ha]

/-- Every byte produced by the SHA-256 embedding is below 256. -/
theorem sha256_bytes_lt (msg : List Nat) : ∀ b ∈ SHA256.sha256 msg, b < 256 := by
  intro b hb
  unfold SHA256.sha256 at hb
  simp only [List.mem_flatMap] at hb
  obtain ⟨w, -, hw⟩ := hb
  simp only [List.mem_cons, List.not_mem_nil, or_false] at hw
  rcases hw with rfl | rfl | rfl | rfl <;> exact Nat.mod_lt _ (by norm_num)

theorem hexDigit_ascii (n : Nat) (h : n < 16) : (hexDigit n).toNat < 128 := by
  unfold hexDigit
  interval_cases n <;> simp

/-- The expected digest string is always ASCII. -/
theorem hmacHexdigest_ascii (secret : List Char) (body : List Nat) :
    isAsciiStr (hmacHexdigest secret body) = true := by
  unfold hmacHexdigest hexOfBytes isAsciiStr
  rw [List.all_eq_true]
  intro c hc
  simp only [List.mem_flatMap] at hc
  obtain ⟨b, hb, hcb⟩ := hc
  have hblt : b < 256 := sha256_bytes_lt _ b hb
  simp only [List.mem_cons, List.not_mem_nil, or_false] at hcb
  have h16a : b / 16 < 16 := Nat.div_lt_of_lt_mul (by omega)
  have h16b : b % 16 < 16 := Nat.mod_lt _ (by norm_num)
  rcases hcb with rfl | rfl
  · simpa using hexDigit_ascii _ h16a
  · simpa using hexDigit_ascii _ h16b

/-- If the header carries the `sha256=` tag, it decomposes as the tag
followed by its 7th-character suffix. -/
theorem sig_tag_decomp (sig : List Char) (h : SIG_TAG.isPrefixOf sig) :
    sig = SIG_TAG ++ sig.drop 7 := by
  have hp : SIG_TAG <+: sig := List.isPrefixOf_iff_prefix.mp h
  have := List.prefix_iff_eq_append.mp hp
  have hlen : SIG_TAG.length = 7 := by decide
  rw [hlen] at this
  exact this.symm

theorem drop_sig_tag (e : List Char) : (SIG_TAG ++ e).drop 7 = e := by
  have hlen : SIG_TAG.length = 7 := by decide
  rw [← hlen, List.drop_left]

/-!
### C1 — HMAC verification on POST /submit

The claim: verification succeeds iff the header equals `sha256=` followed
by the lowercase hex HMAC-SHA256 digest, and **any** deviation is rejected
with 403 `INVALID_SIGNATURE`.  The second half fails: a header whose part
after `sha256=` contains a non-ASCII character (header bytes ≥ 0x80 reach
the handler as latin-1 characters) makes `hmac.compare_digest` raise
`TypeError`, which the middleware does not catch, so `submit_job` answers
500 `INTERNAL_ERROR` instead of 403.
-/

/-- The deviating header of the C1 counterexample: `sha256=` followed by
64 copies of U+00E9, a length-64 non-hex suffix. -/
def c1BadSig : List Char := SIG_TAG ++ List.replicate 64 (Char.ofNat 233)

/-- C1 counterexample: the header `sha256=` + 64×U+00E9 deviates from the
expected signature, yet the request is rejected with 500 `INTERNAL_ERROR`
(propagated `TypeError`), not 403 `INVALID_SIGNATURE` as the claim
states. -/
theorem c1_counterexample :
    submit_signature_outcome (pstr "secret") [] (some c1BadSig) =
      .rejected 500 "INTERNAL_ERROR" ∧
    submit_signature_outcome (pstr "secret") [] (some c1BadSig) ≠
      .rejected 403 "INVALID_SIGNATURE" := by
  constructor
  · rfl
  · decide

/-- C1 (amended): verification succeeds iff the header is exactly
`sha256=` followed by the lowercase hex HMAC-SHA256 digest of the raw
body; a missing header, a missing tag, or an ASCII mismatch (wrong length
or any character difference) is rejected with 403 `INVALID_SIGNATURE`;
but a non-ASCII character after the tag raises `TypeError` in
`hmac.compare_digest` and the request fails with 500 `INTERNAL_ERROR`
instead.  The comparison itself is `hmac.compare_digest`, modelled as the
constant-time full-string fold. -/
theorem compare_digest_nonascii_left (a b : List Char) (h : ¬ isAsciiStr a) :
    compare_digest a b = .error .typeError := by
  unfold compare_digest
  rw [if_neg]
  simp [h]

theorem compare_digest_ascii_ne (a b : List Char) (ha : isAsciiStr a)
    (hb : isAsciiStr b) (hne : a ≠ b) : compare_digest a b = .ok false := by
  have hch := compare_digest_ok_true_iff a b
  unfold compare_digest at hch ⊢
  rw [if_pos (by simp [ha, hb])] at hch ⊢
  congr 1
  rw [Bool.eq_false_iff]
  intro htrue
  exact hne (hch.mp (by rw [htrue])).2.2

theorem verify_hmac_of_tag (secret : List Char) (body : List Nat)
    (sig : List Char) (hpre : SIG_TAG.isPrefixOf sig) :
    verify_hmac_signature secret body sig =
      compare_digest (sig.drop 7) (hmacHexdigest secret body) := by
  unfold verify_hmac_signature
  rw [if_neg]
  simp [hpre]

theorem verify_hmac_of_no_tag (secret : List Char) (body : List Nat)
    (sig : List Char) (hpre : ¬ SIG_TAG.isPrefixOf sig) :
    verify_hmac_signature secret body sig = .ok false := by
  unfold verify_hmac_signature
  rw [if_pos]
  simp [hpre]

theorem submit_outcome_some (secret : List Char) (body : List Nat)
    (sig : List Char) :
    submit_signature_outcome secret body (some sig) =
      (match verify_hmac_signature secret body sig with
       | .ok true => AuthOutcome.accepted
       | .ok false => AuthOutcome.rejected 403 "INVALID_SIGNATURE"
       | .error _ => AuthOutcome.rejected 500 "INTERNAL_ERROR") := rfl

theorem c1_amended_hmac_verification (secret : List Char) (body : List Nat)
    (sig : List Char) :
    (submit_signature_outcome secret body (some sig) = .accepted ↔
      sig = SIG_TAG ++ hmacHexdigest secret body) ∧
    (¬ SIG_TAG.isPrefixOf sig →
      submit_signature_outcome secret body (some sig) =
        .rejected 403 "INVALID_SIGNATURE") ∧
    (SIG_TAG.isPrefixOf sig → isAsciiStr (sig.drop 7) →
      sig ≠ SIG_TAG ++ hmacHexdigest secret body →
      submit_signature_outcome secret body (some sig) =
        .rejected 403 "INVALID_SIGNATURE") ∧
    (SIG_TAG.isPrefixOf sig → ¬ isAsciiStr (sig.drop 7) →
      submit_signature_outcome secret body (some sig) =
        .rejected 500 "INTERNAL_ERROR") ∧
    (submit_signature_outcome secret body none =
      .rejected 403 "INVALID_SIGNATURE") := by
  have hexp := hmacHexdigest_ascii secret body
  by_cases hpre : SIG_TAG.isPrefixOf sig
  · by_cases hascii : isAsciiStr (sig.drop 7)
    · refine ⟨?_, fun h => absurd hpre h, fun _ _ hne => ?_, fun _ h => absurd hascii h, rfl⟩
      · constructor
        · intro h
          rw [submit_outcome_some, verify_hmac_of_tag secret body sig hpre] at h
          by_cases heq : sig.drop 7 = hmacHexdigest secret body
          · rw [sig_tag_decomp sig hpre, heq]
          · rw [compare_digest_ascii_ne _ _ hascii hexp heq] at h
            exact absurd h (by simp)
        · intro h
          rw [submit_outcome_some, verify_hmac_of_tag secret body sig hpre]
          have hdrop : sig.drop 7 = hmacHexdigest secret body := by
            rw [h, drop_sig_tag]
          rw [(compare_digest_ok_true_iff _ _).mpr ⟨hascii, hexp, hdrop⟩]
      · rw [submit_outcome_some, verify_hmac_of_tag secret body sig hpre]
        have hne' : sig.drop 7 ≠ hmacHexdigest secret body := by
          intro hd
          exact hne (by rw [sig_tag_decomp sig hpre, hd])
        rw [compare_digest_ascii_ne _ _ hascii hexp hne']
    · refine ⟨?_, fun h => absurd hpre h, fun _ h => absurd h hascii, fun _ _ => ?_, rfl⟩
      · rw [submit_outcome_some, verify_hmac_of_tag secret body sig hpre,
          compare_digest_nonascii_left _ _ hascii]
        constructor
        · intro h
          exact absurd h (by simp)
        · intro h
          exfalso
          apply hascii
          rw [h, drop_sig_tag]
          exact hexp
      · rw [submit_outcome_some, verify_hmac_of_tag secret body sig hpre,
          compare_digest_nonascii_left _ _ hascii]
  · refine ⟨?_, fun _ => ?_, fun h => absurd h hpre, fun h => absurd h hpre, rfl⟩
    · rw [submit_outcome_some, verify_hmac_of_no_tag secret body sig hpre]
      constructor
      · intro h
        exact absurd h (by simp)
      · intro h
        exfalso
        apply hpre
        rw [h]
        exact List.isPrefixOf_iff_prefix.mpr (List.prefix_append _ _)
    · rw [submit_outcome_some, verify_hmac_of_no_tag secret body sig hpre]

/-- Witness for the amended C1 theorem at a concrete deviating header. -/
theorem c1_amended_witness :
    submit_signature_outcome (pstr "k") [] (some (pstr "nope")) =
      .rejected 403 "INVALID_SIGNATURE" :=
  (c1_amended_hmac_verification (pstr "k") [] (pstr "nope")).2.1 (by decide)

/-! ## POST /submit handler (`app/api/submit.py`, `app/schemas.py`)

`JobSubmitRequest` (`app/schemas.py` lines 23-26) declares the fields
`text`, `comment_id`, `metadata` — and no `type` field.  Yet
`submit_job` reads `job_request.type` twice (lines 41 and 62).  On a
pydantic model, accessing an undeclared attribute raises
`AttributeError`, which falls into the handler's `except Exception`
branch and produces 500 `INTERNAL_ERROR`. -/

/-- `JobSubmitRequest` from `app/schemas.py`: `text` (1..10000 chars),
optional `comment_id` (≤ 255 chars), optional `metadata` JSON object
(modelled by its list of keys). -/
structure JobSubmitRequest where
  text : List Char
  comment_id : Option (List Char)
  metadata : Option (List String)

/-- Pydantic shape validation of `JobSubmitRequest`. -/
def jobSubmitRequestValid (r : JobSubmitRequest) : Bool :=
  1 ≤ r.text.length && r.text.length ≤ 10000 &&
    (match r.comment_id with | none => true | some c => decide (c.length ≤ 255))

/-- The attribute access `job_request.type`: the schema has no such
field, so pydantic raises `AttributeError`. -/
def JobSubmitRequest.getattrType (_ : JobSubmitRequest) : Except PyErr (List Char) :=
  .error .attributeError

/-- A `jobs` row as inserted by the API. -/
structure JobRow where
  job_id : List Char
  status : String
  text : List Char
deriving DecidableEq

/-- Result of one `POST /submit` call: HTTP status, error/success code,
the job rows after the call, and whether a broker message was
published. -/
structure SubmitResult where
  httpStatus : Nat
  code : String
  dbJobs : List JobRow
  published : Bool
deriving DecidableEq

/-- The body of `submit_job` after authentication and signature checks
(`app/api/submit.py` lines 36-87), with the database state threaded
explicitly.  Pydantic has already validated the shape.  Steps in source
order: read `metadata`, add `'type'` to it when absent (reading
`job_request.type` — raises), insert the job row with `status='queued'`
and commit, build the broker message (reading `job_request.type` —
raises), publish, answer 202.  An error carries the rows committed so
far. -/
def submit_job_body (r : JobSubmitRequest) (db0 : List JobRow)
    (jobId : List Char) : Except (PyErr × List JobRow) (List JobRow) :=
  let metadataKeys := r.metadata.getD []
  let step1 : Except (PyErr × List JobRow) (List String) :=
    if "type" ∈ metadataKeys then .ok metadataKeys
    else match r.getattrType with
      | .ok _ => .ok (metadataKeys ++ ["type"])
      | .error e => .error (e, db0)
  match step1 with
  | .error e => .error e
  | .ok _ =>
    let db1 := db0 ++ [{ job_id := jobId, status := "queued", text := r.text }]
    match r.getattrType with
    | .ok _ => .ok db1
    | .error e => .error (e, db1)

/-- `submit_job` with its exception handler (`app/api/submit.py` lines
89-100): any non-HTTP exception answers 500 `INTERNAL_ERROR`. -/
def submit_job (r : JobSubmitRequest) (db0 : List JobRow)
    (jobId : List Char) : SubmitResult :=
  match submit_job_body r db0 jobId with
  | .ok db1 => { httpStatus := 202, code := "OK", dbJobs := db1, published := true }
  | .error (_, db) =>
      { httpStatus := 500, code := "INTERNAL_ERROR", dbJobs := db, published := false }

/-- C2: the claim says a valid, authenticated, correctly signed
`POST /submit` yields 202 `{job_id, status:"queued", ...}`.  In the code
every such request fails with 500 `INTERNAL_ERROR`, because `submit_job`
reads the non-existent `job_request.type` attribute (the schema declares
no `type` field), raising `AttributeError`; nothing is ever published to
the broker.  When the client's own `metadata` carries a `'type'` key the
job row is first inserted and committed (an orphaned `queued` row),
otherwise the failure happens before the insert. -/
theorem c2_submit_type_attribute_bug (r : JobSubmitRequest)
    (db0 : List JobRow) (jid : List Char) :
    (submit_job r db0 jid).httpStatus = 500 ∧
    (submit_job r db0 jid).code = "INTERNAL_ERROR" ∧
    (submit_job r db0 jid).published = false ∧
    ("type" ∈ r.metadata.getD [] →
      (submit_job r db0 jid).dbJobs =
        db0 ++ [{ job_id := jid, status := "queued", text := r.text }]) ∧
    ("type" ∉ r.metadata.getD [] → (submit_job r db0 jid).dbJobs = db0) := by
  unfold submit_job submit_job_body JobSubmitRequest.getattrType
  by_cases h : "type" ∈ r.metadata.getD []
  · simp [h]
  · simp [h]

/-- Witness for C2 at the failing input `{"text": "hello"}` (no
metadata): 500 `INTERNAL_ERROR` and no job row. -/
theorem c2_submit_witness :
    (submit_job ⟨pstr "hello", none, none⟩ [] (pstr "j1")).httpStatus = 500 ∧
    (submit_job ⟨pstr "hello", none, none⟩ [] (pstr "j1")).dbJobs = [] :=
  ⟨(c2_submit_type_attribute_bug ⟨pstr "hello", none, none⟩ [] (pstr "j1")).1,
   (c2_submit_type_attribute_bug ⟨pstr "hello", none, none⟩ [] (pstr "j1")).2.2.2.2
     (by decide)⟩

/-! ## Moderation worker batch finalization
(`moderation-worker/worker.py`, `process_batch`, lines 215-339)

After classification the worker computes one shared
`processing_duration_ms` (whole-batch wall time divided by the number of
valid messages), builds one `status='completed'` update per job, runs the
bulk `UPDATE` inside a `try/except` that logs and swallows failures, then
publishes each completion event inside its own swallowed `try/except`,
and finally **acks every message unconditionally**.  The outer exception
handler (which nacks with requeue) is reached only when an earlier step
— parsing aside, essentially the inference calls — raises. -/

/-- A parsed job message paired with its classification result; only the
fields the worker's finalization reads. -/
structure WorkerJob where
  job_id : List Char
  action : Option String
  sentiment : Option String
  moderation_result : Option String

/-- Result normalization (`worker.py` lines 229-245): the new format has
an `action`; `sentiment` defaults to `negative` for rejects, else
`positive`; the old format falls back to
`moderation_result`/`sentiment` with defaults `review`/`neutral`. -/
def normalize_result (j : WorkerJob) : String × String :=
  match j.action with
  | some a =>
    (a, match j.sentiment with
        | some s => s
        | none => if a = "reject" then "negative" else "positive")
  | none => (j.moderation_result.getD "review", j.sentiment.getD "neutral")

/-- One row of the bulk `UPDATE jobs SET status = :status, ...`. -/
structure DbUpdate where
  job_id : List Char
  status : String
  moderation_result : String
  sentiment : String
  processing_duration_ms : Nat
deriving DecidableEq

/-- `avg_duration_ms` (`worker.py` line 217): whole-batch wall-clock
milliseconds divided by the number of valid messages, truncated to an
integer (`int(total_ms) / n` then `int(...)`; the float division is
exact-to-truncation in the representable range). -/
def avg_duration_ms (totalMs n : Nat) : Nat := totalMs / n

/-- Broker message fate. -/
inductive MsgOutcome
  | acked
  | nackedRequeue
deriving DecidableEq

/-- Output of the finalization phase. -/
structure FinalizeOutput where
  db_updates : List DbUpdate
  dbCommitted : Bool
  events_published : List (List Char)
  outcomes : List MsgOutcome
deriving DecidableEq

/-- `process_batch` finalization (`worker.py` lines 215-333): build the
updates with literal `status = "completed"` and the shared duration;
attempt the bulk DB commit (failure is caught, rolled back, and
execution continues); publish each event (failure is caught and
execution continues); ack every message. -/
def process_batch_finalize (jobs : List WorkerJob) (totalMs : Nat)
    (dbOk : Bool) (pubOk : Nat → Bool) : FinalizeOutput :=
  let n := jobs.length
  { db_updates := jobs.map fun j =>
      { job_id := j.job_id, status := "completed",
        moderation_result := (normalize_result j).1,
        sentiment := (normalize_result j).2,
        processing_duration_ms := avg_duration_ms totalMs n }
    dbCommitted := dbOk
    events_published := (List.range n).filterMap fun i =>
      if pubOk i then (jobs.get? i).map (·.job_id) else none
    outcomes := jobs.map fun _ => .acked }

/-- `process_batch` from the inference step on: if an exception escapes
the body (inference failure), the outer handler nacks every message with
requeue; otherwise the finalization above runs. -/
def process_batch (inferenceOk : Bool) (jobs : List WorkerJob)
    (totalMs : Nat) (dbOk : Bool) (pubOk : Nat → Bool) : FinalizeOutput :=
  if inferenceOk then process_batch_finalize jobs totalMs dbOk pubOk
  else { db_updates := [], dbCommitted := false, events_published := [],
         outcomes := jobs.map fun _ => .nackedRequeue }

/-- C3 counterexample: a one-job batch whose DB bulk update fails
(`dbOk = false`): the result row is **not** durably committed, yet the
completion event is still published and the message is still **acked** —
not negatively acknowledged with requeue as the claim states. -/
theorem c3_counterexample :
    (process_batch true [⟨pstr "j1", some "allowed", none, none⟩] 100 false
        (fun _ => true)).dbCommitted = false ∧
    (process_batch true [⟨pstr "j1", some "allowed", none, none⟩] 100 false
        (fun _ => true)).events_published = [pstr "j1"] ∧
    (process_batch true [⟨pstr "j1", some "allowed", none, none⟩] 100 false
        (fun _ => true)).outcomes = [.acked] ∧
    (process_batch true [⟨pstr "j1", some "allowed", none, none⟩] 100 false
        (fun _ => true)).outcomes ≠ [.nackedRequeue] := by
  refine ⟨rfl, by decide, rfl, by decide⟩

/-- C3 (amended): once the batch reaches the finalization phase, every
message is acked regardless of whether the DB write or the event publish
succeeded — those failures are caught and logged, not turned into nacks;
the completion events are published even when the DB commit failed.
Only an exception raised before finalization (the inference step) makes
the worker nack all messages with requeue. -/
theorem c3_amended_ack_swallow (jobs : List WorkerJob) (totalMs : Nat)
    (dbOk : Bool) (pubOk : Nat → Bool) :
    (process_batch true jobs totalMs dbOk pubOk).outcomes =
      jobs.map (fun _ => .acked) ∧
    (process_batch false jobs totalMs dbOk pubOk).outcomes =
      jobs.map (fun _ => .nackedRequeue) ∧
    (process_batch true jobs totalMs dbOk pubOk).dbCommitted = dbOk := by
  refine ⟨rfl, rfl, ?_⟩
  simp [process_batch, process_batch_finalize]

/-- C4 counterexample: for a processed job the worker writes exactly one
status, `completed`; no `processing` write ever happens (and no `failed`
write exists in `process_batch` at all), contradicting the claimed
`queued → processing → completed|failed` write sequence. -/
theorem c4_counterexample :
    ((process_batch true [⟨pstr "j1", some "allowed", none, none⟩] 100 true
        (fun _ => true)).db_updates.map (·.status)) = ["completed"] ∧
    "processing" ∉ ((process_batch true [⟨pstr "j1", some "allowed", none, none⟩]
        100 true (fun _ => true)).db_updates.map (·.status)) := by
  refine ⟨rfl, by decide⟩

/-- C4 (amended): the API inserts the row with `status='queued'`
(`app/api/submit.py` line 50) and the worker's only status write is the
single bulk update to `completed`; it never writes `processing` or
`failed`, so a processed job's status path is `queued → completed`. -/
theorem c4_amended_no_processing_status (inferenceOk : Bool)
    (jobs : List WorkerJob) (totalMs : Nat) (dbOk : Bool)
    (pubOk : Nat → Bool) :
    ∀ u ∈ (process_batch inferenceOk jobs totalMs dbOk pubOk).db_updates,
      u.status = "completed" := by
  intro u hu
  unfold process_batch process_batch_finalize at hu
  by_cases h : inferenceOk
  · simp only [h, if_true, List.mem_map] at hu
    obtain ⟨j, -, rfl⟩ := hu
    rfl
  · simp [h] at hu

/-- Witness for the amended C4 theorem on a concrete batch. -/
theorem c4_amended_witness :
    ({ job_id := pstr "j1", status := "completed",
       moderation_result := "allowed", sentiment := "positive",
       processing_duration_ms := 100 } : DbUpdate).status = "completed" :=
  c4_amended_no_processing_status true [⟨pstr "j1", some "allowed", none, none⟩]
    100 true (fun _ => true) _ (by decide)

/-- C10: every job of a batch is written with the identical
`processing_duration_ms`, the whole batch's wall-clock milliseconds
divided by the number of valid messages (truncated division) — not the
job's own processing time. -/
theorem c10_shared_batch_duration (jobs : List WorkerJob) (totalMs : Nat)
    (dbOk : Bool) (pubOk : Nat → Bool) (_h : 0 < jobs.length) :
    ∀ u ∈ (process_batch_finalize jobs totalMs dbOk pubOk).db_updates,
      u.processing_duration_ms = totalMs / jobs.length := by
  intro u hu
  unfold process_batch_finalize at hu
  simp only [List.mem_map] at hu
  obtain ⟨j, -, rfl⟩ := hu
  rfl

/-- Witness for C10: in a two-job batch taking 101 ms, the first row is
written with the shared truncated duration 50 (= 101 / 2). -/
theorem c10_shared_batch_duration_witness :
    ((process_batch_finalize
        [⟨pstr "a", some "allowed", none, none⟩,
         ⟨pstr "b", some "reject", none, none⟩] 101 true
        (fun _ => true)).db_updates.get ⟨0, by decide⟩).processing_duration_ms
      = 50 :=
  c10_shared_batch_duration
    [⟨pstr "a", some "allowed", none, none⟩,
     ⟨pstr "b", some "reject", none, none⟩] 101 true (fun _ => true)
    (by decide) _ (by decide)

/-! ## Webhook dispatcher (`webhook-dispatcher/dispatcher.py`)

`process_webhook` loops `for attempt in range(1, WEBHOOK_MAX_RETRIES+1)`:
each attempt POSTs, appends a `webhook_logs` row whose status is
`success` on 2xx, `retrying` on failure before the last attempt, and
`failed` on the last; after a non-final failure it sleeps
`5 * 2^(attempt-1)` seconds.  `send_webhook` reports success iff
`200 <= status < 300`; timeouts and transport errors report failure. -/

/-- The observable outcome of one `send_webhook` call. -/
inductive SendOutcome
  | http (status : Nat)
  | timeout
  | transportError

/-- `success = 200 <= status_code < 300` (`dispatcher.py` line 77);
timeout and transport errors return `success = False`. -/
def send_success : SendOutcome → Bool
  | .http s => 200 ≤ s && s < 300
  | .timeout => false
  | .transportError => false

/-- One `webhook_logs` row (the fields C7 speaks about). -/
structure WebhookAttemptRow where
  attempt_number : Nat
  status : String
deriving DecidableEq

/-- `WEBHOOK_MAX_RETRIES` default from `webhook-dispatcher/config.py`. -/
def WEBHOOK_MAX_RETRIES : Nat := 3

/-- The attempt loop of `process_webhook` (`dispatcher.py` lines
128-174).  `responses n` is what the target answers to the n-th attempt
(1-based).  Returns the appended rows and the list of backoff sleeps
performed.  Structural fuel counts the remaining iterations. -/
def webhook_attempt_loop (maxR : Nat) (responses : Nat → SendOutcome) :
    Nat → Nat → List WebhookAttemptRow × List Nat
  | _, 0 => ([], [])
  | attempt, fuel + 1 =>
    let succ := send_success (responses attempt)
    let row : WebhookAttemptRow :=
      { attempt_number := attempt
        status := if succ then "success"
                  else if attempt < maxR then "retrying" else "failed" }
    if succ then ([row], [])
    else if attempt < maxR then
      let rest := webhook_attempt_loop maxR responses (attempt + 1) fuel
      (row :: rest.1, 5 * 2 ^ (attempt - 1) :: rest.2)
    else ([row], [])

/-- `process_webhook`'s delivery loop with the configured maximum. -/
def process_webhook (maxR : Nat) (responses : Nat → SendOutcome) :
    List WebhookAttemptRow × List Nat :=
  webhook_attempt_loop maxR responses 1 maxR

/-- Rows appended by the loop carry `status = "success"` exactly when the
attempt's response was 2xx. -/
theorem webhook_loop_success_iff (maxR : Nat) (responses : Nat → SendOutcome)
    (attempt fuel : Nat) :
    ∀ r ∈ (webhook_attempt_loop maxR responses attempt fuel).1,
      (r.status = "success" ↔ send_success (responses r.attempt_number) = true) := by
  induction fuel generalizing attempt with
  | zero =>
    intro r hr
    simp [webhook_attempt_loop] at hr
  | succ fuel ih =>
    intro r hr
    unfold webhook_attempt_loop at hr
    by_cases hs : send_success (responses attempt)
    · simp only [hs, if_true] at hr
      simp only [List.mem_singleton] at hr
      subst hr
      simpa using hs
    · simp only [hs, Bool.false_eq_true, if_false] at hr
      by_cases hlt : attempt < maxR
      · simp only [hlt, if_true, List.mem_cons] at hr
        rcases hr with rfl | hr
        · simp only [hs]
          constructor
          · intro hcon
            exfalso
            revert hcon
            by_cases h2 : attempt < maxR <;> simp [h2]
          · intro hcon
            exact absurd hcon (by simp)
        · exact ih (attempt + 1) r hr
      · simp only [hlt, if_false, List.mem_singleton] at hr
        subst hr
        simp only [hs, hlt]
        constructor
        · intro hcon
          exact absurd hcon (by simp)
        · intro hcon
          exact absurd hcon (by simp)

/-- C7: with the default maximum of 3 attempts, a target that never
answers 2xx gets exactly 3 attempts — rows numbered 1, 2, 3 with
statuses `retrying`, `retrying`, `failed`; the dispatcher sleeps 5 s
before the 2nd attempt and 10 s before the 3rd; there is no 4th attempt;
and in every run a row is `success` iff its attempt's HTTP response was
2xx. -/
theorem c7_webhook_retry_bounds (responses : Nat → SendOutcome)
    (hfail : ∀ n, send_success (responses n) = false) :
    ((process_webhook WEBHOOK_MAX_RETRIES responses).1.map (·.attempt_number)
        = [1, 2, 3]) ∧
    ((process_webhook WEBHOOK_MAX_RETRIES responses).1.map (·.status)
        = ["retrying", "retrying", "failed"]) ∧
    ((process_webhook WEBHOOK_MAX_RETRIES responses).2 = [5, 10]) ∧
    (∀ other : Nat → SendOutcome,
      ∀ r ∈ (process_webhook WEBHOOK_MAX_RETRIES other).1,
        (r.status = "success" ↔ send_success (other r.attempt_number) = true)) := by
  refine ⟨?_, ?_, ?_, fun other => webhook_loop_success_iff _ other 1 _⟩ <;>
    simp [process_webhook, webhook_attempt_loop, hfail 1, hfail 2, hfail 3,
      WEBHOOK_MAX_RETRIES]

/-- Witness for C7: a target answering 500 to every attempt. -/
theorem c7_webhook_retry_bounds_witness :
    ((process_webhook WEBHOOK_MAX_RETRIES (fun _ => .http 500)).1.map
        (·.status) = ["retrying", "retrying", "failed"]) ∧
    ((process_webhook WEBHOOK_MAX_RETRIES (fun _ => .http 500)).2 = [5, 10]) :=
  ⟨(c7_webhook_retry_bounds (fun _ => .http 500) (fun _ => rfl)).2.1,
   (c7_webhook_retry_bounds (fun _ => .http 500) (fun _ => rfl)).2.2.1⟩

/-! ### Outbound webhook payload (C8)

The worker's completion event (`worker.py` lines 260-289) carries
`processing_duration_ms`, `completed_at` and optional `detected_labels`,
`severity_score`, `transcribed_text`, `extracted_text`; but the
dispatcher rebuilds the outbound body (`dispatcher.py` lines 116-125)
with only eight keys and names the completion time `timestamp`. -/

/-- A JSON value (the shapes the payload uses). -/
inductive JVal
  | str (s : List Char)
  | num (q : ℚ)
  | null
deriving DecidableEq

/-- A completion event as published by the worker. -/
structure CompletionEvent where
  job_id : List Char
  client_id : Nat
  comment_id : Option (List Char)
  text : List Char
  jtype : String
  sentiment : String
  moderation_result : String
  confidence : ℚ
  reasoning : Option (List Char)
  processing_duration_ms : Nat
  completed_at : List Char
  detected_labels : Option (List (List Char))
  severity_score : Option ℚ
  transcribed_text : Option (List Char)
  extracted_text : Option (List Char)

/-- The keys of the worker's completion event dict, in insertion order
(`worker.py` lines 260-289); the final four appear only when present in
the classification result. -/
def completion_event_keys (e : CompletionEvent) : List String :=
  ["job_id", "client_id", "comment_id", "text", "type", "sentiment",
   "moderation_result", "confidence", "reasoning",
   "processing_duration_ms", "completed_at"] ++
  (if e.detected_labels.isSome then ["detected_labels"] else []) ++
  (if e.severity_score.isSome then ["severity_score"] else []) ++
  (if e.transcribed_text.isSome then ["transcribed_text"] else []) ++
  (if e.extracted_text.isSome then ["extracted_text"] else [])

/-- The outbound webhook body built by the dispatcher (`dispatcher.py`
lines 116-125): exactly these eight keys, with the completion time under
the key `timestamp`. -/
def dispatch_payload (e : CompletionEvent) : List (String × JVal) :=
  [("job_id", .str e.job_id),
   ("comment_id", match e.comment_id with | some c => .str c | none => .null),
   ("text", .str e.text),
   ("sentiment", .str (pstr e.sentiment)),
   ("moderation_result", .str (pstr e.moderation_result)),
   ("confidence", .num e.confidence),
   ("reasoning", match e.reasoning with | some r => .str r | none => .null),
   ("timestamp", .str e.completed_at)]

/-- `json.dumps(..., ensure_ascii=False)` escaping for one character of a
string value: only the quote, the backslash, and control characters are
escaped; everything else — in particular every non-ASCII character — is
emitted verbatim. -/
def jsonEscapeChar (c : Char) : List Char :=
  if c = Char.ofNat 34 then [Char.ofNat 92, Char.ofNat 34]
  else if c = Char.ofNat 92 then [Char.ofNat 92, Char.ofNat 92]
  else if c.toNat = 10 then [Char.ofNat 92, Char.ofNat 110]
  else if c.toNat = 9 then [Char.ofNat 92, Char.ofNat 116]
  else if c.toNat = 13 then [Char.ofNat 92, Char.ofNat 114]
  else if c.toNat = 8 then [Char.ofNat 92, Char.ofNat 98]
  else if c.toNat = 12 then [Char.ofNat 92, Char.ofNat 102]
  else if c.toNat < 32 then
    [Char.ofNat 92, Char.ofNat 117, Char.ofNat 48, Char.ofNat 48,
     hexDigit (c.toNat / 16), hexDigit (c.toNat % 16)]
  else [c]

/-- Serialization of a JSON string value with `ensure_ascii=False`. -/
def json_dumps_str (s : List Char) : List Char :=
  Char.ofNat 34 :: s.flatMap jsonEscapeChar ++ [Char.ofNat 34]

/-- A concrete completion event whose optional fields are all present. -/
def c8Event : CompletionEvent :=
  { job_id := pstr "j1", client_id := 7, comment_id := some (pstr "c1"),
    text := pstr "xin chào", jtype := "text", sentiment := "negative",
    moderation_result := "reject", confidence := 9 / 10,
    reasoning := some (pstr "r"), processing_duration_ms := 123,
    completed_at := pstr "2026-01-01T00:00:00",
    detected_labels := some [pstr "hate"], severity_score := some 2,
    transcribed_text := some (pstr "t"), extracted_text := some (pstr "o") }

/-- C8 counterexample: for a completion event carrying every optional
field, the outbound body's keys are exactly the eight the dispatcher
hard-codes; `processing_duration_ms`, `completed_at`, `detected_labels`,
`severity_score`, `extracted_text` and `transcribed_text` are absent,
contradicting the claimed field list. -/
theorem c8_counterexample :
    ((dispatch_payload c8Event).map Prod.fst =
      ["job_id", "comment_id", "text", "sentiment", "moderation_result",
       "confidence", "reasoning", "timestamp"]) ∧
    "processing_duration_ms" ∉ (dispatch_payload c8Event).map Prod.fst ∧
    "completed_at" ∉ (dispatch_payload c8Event).map Prod.fst ∧
    "detected_labels" ∉ (dispatch_payload c8Event).map Prod.fst ∧
    "severity_score" ∉ (dispatch_payload c8Event).map Prod.fst ∧
    "extracted_text" ∉ (dispatch_payload c8Event).map Prod.fst ∧
    "transcribed_text" ∉ (dispatch_payload c8Event).map Prod.fst ∧
    "processing_duration_ms" ∈ completion_event_keys c8Event ∧
    "completed_at" ∈ completion_event_keys c8Event ∧
    "detected_labels" ∈ completion_event_keys c8Event := by
  refine ⟨rfl, ?_, ?_, ?_, ?_, ?_, ?_, ?_, ?_, ?_⟩ <;> decide

/-- C8 (amended): the outbound webhook body is UTF-8 JSON whose keys are
exactly `job_id`, `comment_id`, `text`, `sentiment`,
`moderation_result`, `confidence`, `reasoning` and `timestamp` (carrying
the completion time); the event's `processing_duration_ms`,
`completed_at` (under that name), `detected_labels`, `severity_score`,
`extracted_text` and `transcribed_text` are dropped by the dispatcher.
Non-ASCII characters of string values are preserved verbatim by the
`ensure_ascii=False` serialization. -/
theorem c8_amended_payload_keys (e : CompletionEvent) :
    ((dispatch_payload e).map Prod.fst =
      ["job_id", "comment_id", "text", "sentiment", "moderation_result",
       "confidence", "reasoning", "timestamp"]) ∧
    ((dispatch_payload e).lookup "timestamp" = some (.str e.completed_at)) ∧
    ((dispatch_payload e).lookup "processing_duration_ms" = none) ∧
    (∀ s : List Char, ∀ c ∈ s, 128 ≤ c.toNat → c ∈ json_dumps_str s) := by
  refine ⟨rfl, ?_, ?_, ?_⟩
  · rfl
  · rfl
  intro s c hc hge
  unfold json_dumps_str
  simp only [List.mem_cons, List.mem_append, List.mem_flatMap]
  refine Or.inl (Or.inr ⟨c, hc, ?_⟩)
  unfold jsonEscapeChar
  have h34 : ¬ c = Char.ofNat 34 := by
    intro h
    rw [h] at hge
    exact absurd hge (by decide)
  have h92 : ¬ c = Char.ofNat 92 := by
    intro h
    rw [h] at hge
    exact absurd hge (by decide)
  simp only [h34, h92, if_false]
  have hlt : ¬ c.toNat < 32 := by omega
  have h10 : ¬ c.toNat = 10 := by omega
  have h9 : ¬ c.toNat = 9 := by omega
  have h13 : ¬ c.toNat = 13 := by omega
  have h8 : ¬ c.toNat = 8 := by omega
  have h12 : ¬ c.toNat = 12 := by omega
  simp [h10, h9, h13, h8, h12, hlt]

/-- Witness for the amended C8 theorem: a Vietnamese character survives
serialization of a concrete payload text. -/
theorem c8_amended_witness :
    Char.ofNat 224 ∈ json_dumps_str (pstr "chào") :=
  (c8_amended_payload_keys c8Event).2.2.2 (pstr "chào") (Char.ofNat 224)
    (by decide) (by decide)


/-! ## Layer A — Vietnamese text normalizer
(`moderation-worker/nlp/text_normalizer.py`)

The pipeline of `create_all_versions`: Unicode cleanup, lowercase,
homoglyph mapping, leetspeak mapping, repeated-character collapse,
separator removal between letters, whitespace normalization, and a
parallel diacritics-stripped version.

Note on the source file's encoding: `text_normalizer.py` is
double-encoded on disk (its UTF-8 bytes were decoded as mac-roman and
re-encoded), so the non-ASCII dictionary keys are multi-character
strings.  The embedding keeps them verbatim; the per-character lookups
of `normalize_homoglyphs` and `remove_vietnamese_diacritics` can never
match a multi-character key, so those entries are dead in the source
too.  The ASCII-keyed tables (leetspeak, separators) are live.

Scanners take explicit fuel (always called with enough for the input) so
that every definition is structural and kernel-reducible.
-/

namespace TextNormalizer

/-- One-character lowercasings of `str.lower` over the non-ASCII,
non-fullwidth repertoire this development touches (Latin-1 and extended
Latin incl. Vietnamese, Greek, Cyrillic, punctuation blocks). -/
def PY_LOWER_PAIRS : List (Char × Char) :=
  [(Char.ofNat 192, Char.ofNat 224),
   (Char.ofNat 193, Char.ofNat 225),
   (Char.ofNat 194, Char.ofNat 226),
   (Char.ofNat 195, Char.ofNat 227),
   (Char.ofNat 196, Char.ofNat 228),
   (Char.ofNat 197, Char.ofNat 229),
   (Char.ofNat 198, Char.ofNat 230),
   (Char.ofNat 199, Char.ofNat 231),
   (Char.ofNat 200, Char.ofNat 232),
   (Char.ofNat 201, Char.ofNat 233),
   (Char.ofNat 202, Char.ofNat 234),
   (Char.ofNat 203, Char.ofNat 235),
   (Char.ofNat 204, Char.ofNat 236),
   (Char.ofNat 205, Char.ofNat 237),
   (Char.ofNat 206, Char.ofNat 238),
   (Char.ofNat 207, Char.ofNat 239),
   (Char.ofNat 208, Char.ofNat 240),
   (Char.ofNat 209, Char.ofNat 241),
   (Char.ofNat 210, Char.ofNat 242),
   (Char.ofNat 211, Char.ofNat 243),
   (Char.ofNat 212, Char.ofNat 244),
   (Char.ofNat 213, Char.ofNat 245),
   (Char.ofNat 214, Char.ofNat 246),
   (Char.ofNat 216, Char.ofNat 248),
   (Char.ofNat 217, Char.ofNat 249),
   (Char.ofNat 218, Char.ofNat 250),
   (Char.ofNat 219, Char.ofNat 251),
   (Char.ofNat 220, Char.ofNat 252),
   (Char.ofNat 221, Char.ofNat 253),
   (Char.ofNat 222, Char.ofNat 254),
   (Char.ofNat 256, Char.ofNat 257),
   (Char.ofNat 258, Char.ofNat 259),
   (Char.ofNat 260, Char.ofNat 261),
   (Char.ofNat 262, Char.ofNat 263),
   (Char.ofNat 264, Char.ofNat 265),
   (Char.ofNat 266, Char.ofNat 267),
   (Char.ofNat 268, Char.ofNat 269),
   (Char.ofNat 270, Char.ofNat 271),
   (Char.ofNat 272, Char.ofNat 273),
   (Char.ofNat 274, Char.ofNat 275),
   (Char.ofNat 276, Char.ofNat 277),
   (Char.ofNat 278, Char.ofNat 279),
   (Char.ofNat 280, Char.ofNat 281),
   (Char.ofNat 282, Char.ofNat 283),
   (Char.ofNat 284, Char.ofNat 285),
   (Char.ofNat 286, Char.ofNat 287),
   (Char.ofNat 288, Char.ofNat 289),
   (Char.ofNat 290, Char.ofNat 291),
   (Char.ofNat 292, Char.ofNat 293),
   (Char.ofNat 294, Char.ofNat 295),
   (Char.ofNat 296, Char.ofNat 297),
   (Char.ofNat 298, Char.ofNat 299),
   (Char.ofNat 300, Char.ofNat 301),
   (Char.ofNat 302, Char.ofNat 303),
   (Char.ofNat 306, Char.ofNat 307),
   (Char.ofNat 308, Char.ofNat 309),
   (Char.ofNat 310, Char.ofNat 311),
   (Char.ofNat 313, Char.ofNat 314),
   (Char.ofNat 315, Char.ofNat 316),
   (Char.ofNat 317, Char.ofNat 318),
   (Char.ofNat 319, Char.ofNat 320),
   (Char.ofNat 321, Char.ofNat 322),
   (Char.ofNat 323, Char.ofNat 324),
   (Char.ofNat 325, Char.ofNat 326),
   (Char.ofNat 327, Char.ofNat 328),
   (Char.ofNat 330, Char.ofNat 331),
   (Char.ofNat 332, Char.ofNat 333),
   (Char.ofNat 334, Char.ofNat 335),
   (Char.ofNat 336, Char.ofNat 337),
   (Char.ofNat 338, Char.ofNat 339),
   (Char.ofNat 340, Char.ofNat 341),
   (Char.ofNat 342, Char.ofNat 343),
   (Char.ofNat 344, Char.ofNat 345),
   (Char.ofNat 346, Char.ofNat 347),
   (Char.ofNat 348, Char.ofNat 349),
   (Char.ofNat 350, Char.ofNat 351),
   (Char.ofNat 352, Char.ofNat 353),
   (Char.ofNat 354, Char.ofNat 355),
   (Char.ofNat 356, Char.ofNat 357),
   (Char.ofNat 358, Char.ofNat 359),
   (Char.ofNat 360, Char.ofNat 361),
   (Char.ofNat 362, Char.ofNat 363),
   (Char.ofNat 364, Char.ofNat 365),
   (Char.ofNat 366, Char.ofNat 367),
   (Char.ofNat 368, Char.ofNat 369),
   (Char.ofNat 370, Char.ofNat 371),
   (Char.ofNat 372, Char.ofNat 373),
   (Char.ofNat 374, Char.ofNat 375),
   (Char.ofNat 376, Char.ofNat 255),
   (Char.ofNat 377, Char.ofNat 378),
   (Char.ofNat 379, Char.ofNat 380),
   (Char.ofNat 381, Char.ofNat 382),
   (Char.ofNat 385, Char.ofNat 595),
   (Char.ofNat 386, Char.ofNat 387),
   (Char.ofNat 388, Char.ofNat 389),
   (Char.ofNat 390, Char.ofNat 596),
   (Char.ofNat 391, Char.ofNat 392),
   (Char.ofNat 393, Char.ofNat 598),
   (Char.ofNat 394, Char.ofNat 599),
   (Char.ofNat 395, Char.ofNat 396),
   (Char.ofNat 398, Char.ofNat 477),
   (Char.ofNat 399, Char.ofNat 601),
   (Char.ofNat 400, Char.ofNat 603),
   (Char.ofNat 401, Char.ofNat 402),
   (Char.ofNat 403, Char.ofNat 608),
   (Char.ofNat 404, Char.ofNat 611),
   (Char.ofNat 406, Char.ofNat 617),
   (Char.ofNat 407, Char.ofNat 616),
   (Char.ofNat 408, Char.ofNat 409),
   (Char.ofNat 412, Char.ofNat 623),
   (Char.ofNat 413, Char.ofNat 626),
   (Char.ofNat 415, Char.ofNat 629),
   (Char.ofNat 416, Char.ofNat 417),
   (Char.ofNat 418, Char.ofNat 419),
   (Char.ofNat 420, Char.ofNat 421),
   (Char.ofNat 422, Char.ofNat 640),
   (Char.ofNat 423, Char.ofNat 424),
   (Char.ofNat 425, Char.ofNat 643),
   (Char.ofNat 428, Char.ofNat 429),
   (Char.ofNat 430, Char.ofNat 648),
   (Char.ofNat 431, Char.ofNat 432),
   (Char.ofNat 433, Char.ofNat 650),
   (Char.ofNat 434, Char.ofNat 651),
   (Char.ofNat 435, Char.ofNat 436),
   (Char.ofNat 437, Char.ofNat 438),
   (Char.ofNat 439, Char.ofNat 658),
   (Char.ofNat 440, Char.ofNat 441),
   (Char.ofNat 444, Char.ofNat 445),
   (Char.ofNat 452, Char.ofNat 454),
   (Char.ofNat 453, Char.ofNat 454),
   (Char.ofNat 455, Char.ofNat 457),
   (Char.ofNat 456, Char.ofNat 457),
   (Char.ofNat 458, Char.ofNat 460),
   (Char.ofNat 459, Char.ofNat 460),
   (Char.ofNat 461, Char.ofNat 462),
   (Char.ofNat 463, Char.ofNat 464),
   (Char.ofNat 465, Char.ofNat 466),
   (Char.ofNat 467, Char.ofNat 468),
   (Char.ofNat 469, Char.ofNat 470),
   (Char.ofNat 471, Char.ofNat 472),
   (Char.ofNat 473, Char.ofNat 474),
   (Char.ofNat 475, Char.ofNat 476),
   (Char.ofNat 478, Char.ofNat 479),
   (Char.ofNat 480, Char.ofNat 481),
   (Char.ofNat 482, Char.ofNat 483),
   (Char.ofNat 484, Char.ofNat 485),
   (Char.ofNat 486, Char.ofNat 487),
   (Char.ofNat 488, Char.ofNat 489),
   (Char.ofNat 490, Char.ofNat 491),
   (Char.ofNat 492, Char.ofNat 493),
   (Char.ofNat 494, Char.ofNat 495),
   (Char.ofNat 497, Char.ofNat 499),
   (Char.ofNat 498, Char.ofNat 499),
   (Char.ofNat 500, Char.ofNat 501),
   (Char.ofNat 502, Char.ofNat 405),
   (Char.ofNat 503, Char.ofNat 447),
   (Char.ofNat 504, Char.ofNat 505),
   (Char.ofNat 506, Char.ofNat 507),
   (Char.ofNat 508, Char.ofNat 509),
   (Char.ofNat 510, Char.ofNat 511),
   (Char.ofNat 512, Char.ofNat 513),
   (Char.ofNat 514, Char.ofNat 515),
   (Char.ofNat 516, Char.ofNat 517),
   (Char.ofNat 518, Char.ofNat 519),
   (Char.ofNat 520, Char.ofNat 521),
   (Char.ofNat 522, Char.ofNat 523),
   (Char.ofNat 524, Char.ofNat 525),
   (Char.ofNat 526, Char.ofNat 527),
   (Char.ofNat 528, Char.ofNat 529),
   (Char.ofNat 530, Char.ofNat 531),
   (Char.ofNat 532, Char.ofNat 533),
   (Char.ofNat 534, Char.ofNat 535),
   (Char.ofNat 536, Char.ofNat 537),
   (Char.ofNat 538, Char.ofNat 539),
   (Char.ofNat 540, Char.ofNat 541),
   (Char.ofNat 542, Char.ofNat 543),
   (Char.ofNat 544, Char.ofNat 414),
   (Char.ofNat 546, Char.ofNat 547),
   (Char.ofNat 548, Char.ofNat 549),
   (Char.ofNat 550, Char.ofNat 551),
   (Char.ofNat 552, Char.ofNat 553),
   (Char.ofNat 554, Char.ofNat 555),
   (Char.ofNat 556, Char.ofNat 557),
   (Char.ofNat 558, Char.ofNat 559),
   (Char.ofNat 560, Char.ofNat 561),
   (Char.ofNat 562, Char.ofNat 563),
   (Char.ofNat 570, Char.ofNat 11365),
   (Char.ofNat 571, Char.ofNat 572),
   (Char.ofNat 573, Char.ofNat 410),
   (Char.ofNat 574, Char.ofNat 11366),
   (Char.ofNat 577, Char.ofNat 578),
   (Char.ofNat 579, Char.ofNat 384),
   (Char.ofNat 580, Char.ofNat 649),
   (Char.ofNat 581, Char.ofNat 652),
   (Char.ofNat 582, Char.ofNat 583),
   (Char.ofNat 584, Char.ofNat 585),
   (Char.ofNat 586, Char.ofNat 587),
   (Char.ofNat 588, Char.ofNat 589),
   (Char.ofNat 590, Char.ofNat 591),
   (Char.ofNat 880, Char.ofNat 881),
   (Char.ofNat 882, Char.ofNat 883),
   (Char.ofNat 886, Char.ofNat 887),
   (Char.ofNat 895, Char.ofNat 1011),
   (Char.ofNat 902, Char.ofNat 940),
   (Char.ofNat 904, Char.ofNat 941),
   (Char.ofNat 905, Char.ofNat 942),
   (Char.ofNat 906, Char.ofNat 943),
   (Char.ofNat 908, Char.ofNat 972),
   (Char.ofNat 910, Char.ofNat 973),
   (Char.ofNat 911, Char.ofNat 974),
   (Char.ofNat 913, Char.ofNat 945),
   (Char.ofNat 914, Char.ofNat 946),
   (Char.ofNat 915, Char.ofNat 947),
   (Char.ofNat 916, Char.ofNat 948),
   (Char.ofNat 917, Char.ofNat 949),
   (Char.ofNat 918, Char.ofNat 950),
   (Char.ofNat 919, Char.ofNat 951),
   (Char.ofNat 920, Char.ofNat 952),
   (Char.ofNat 921, Char.ofNat 953),
   (Char.ofNat 922, Char.ofNat 954),
   (Char.ofNat 923, Char.ofNat 955),
   (Char.ofNat 924, Char.ofNat 956),
   (Char.ofNat 925, Char.ofNat 957),
   (Char.ofNat 926, Char.ofNat 958),
   (Char.ofNat 927, Char.ofNat 959),
   (Char.ofNat 928, Char.ofNat 960),
   (Char.ofNat 929, Char.ofNat 961),
   (Char.ofNat 931, Char.ofNat 963),
   (Char.ofNat 932, Char.ofNat 964),
   (Char.ofNat 933, Char.ofNat 965),
   (Char.ofNat 934, Char.ofNat 966),
   (Char.ofNat 935, Char.ofNat 967),
   (Char.ofNat 936, Char.ofNat 968),
   (Char.ofNat 937, Char.ofNat 969),
   (Char.ofNat 938, Char.ofNat 970),
   (Char.ofNat 939, Char.ofNat 971),
   (Char.ofNat 975, Char.ofNat 983),
   (Char.ofNat 984, Char.ofNat 985),
   (Char.ofNat 986, Char.ofNat 987),
   (Char.ofNat 988, Char.ofNat 989),
   (Char.ofNat 990, Char.ofNat 991),
   (Char.ofNat 992, Char.ofNat 993),
   (Char.ofNat 994, Char.ofNat 995),
   (Char.ofNat 996, Char.ofNat 997),
   (Char.ofNat 998, Char.ofNat 999),
   (Char.ofNat 1000, Char.ofNat 1001),
   (Char.ofNat 1002, Char.ofNat 1003),
   (Char.ofNat 1004, Char.ofNat 1005),
   (Char.ofNat 1006, Char.ofNat 1007),
   (Char.ofNat 1012, Char.ofNat 952),
   (Char.ofNat 1015, Char.ofNat 1016),
   (Char.ofNat 1017, Char.ofNat 1010),
   (Char.ofNat 1018, Char.ofNat 1019),
   (Char.ofNat 1021, Char.ofNat 891),
   (Char.ofNat 1022, Char.ofNat 892),
   (Char.ofNat 1023, Char.ofNat 893),
   (Char.ofNat 1024, Char.ofNat 1104),
   (Char.ofNat 1025, Char.ofNat 1105),
   (Char.ofNat 1026, Char.ofNat 1106),
   (Char.ofNat 1027, Char.ofNat 1107),
   (Char.ofNat 1028, Char.ofNat 1108),
   (Char.ofNat 1029, Char.ofNat 1109),
   (Char.ofNat 1030, Char.ofNat 1110),
   (Char.ofNat 1031, Char.ofNat 1111),
   (Char.ofNat 1032, Char.ofNat 1112),
   (Char.ofNat 1033, Char.ofNat 1113),
   (Char.ofNat 1034, Char.ofNat 1114),
   (Char.ofNat 1035, Char.ofNat 1115),
   (Char.ofNat 1036, Char.ofNat 1116),
   (Char.ofNat 1037, Char.ofNat 1117),
   (Char.ofNat 1038, Char.ofNat 1118),
   (Char.ofNat 1039, Char.ofNat 1119),
   (Char.ofNat 1040, Char.ofNat 1072),
   (Char.ofNat 1041, Char.ofNat 1073),
   (Char.ofNat 1042, Char.ofNat 1074),
   (Char.ofNat 1043, Char.ofNat 1075),
   (Char.ofNat 1044, Char.ofNat 1076),
   (Char.ofNat 1045, Char.ofNat 1077),
   (Char.ofNat 1046, Char.ofNat 1078),
   (Char.ofNat 1047, Char.ofNat 1079),
   (Char.ofNat 1048, Char.ofNat 1080),
   (Char.ofNat 1049, Char.ofNat 1081),
   (Char.ofNat 1050, Char.ofNat 1082),
   (Char.ofNat 1051, Char.ofNat 1083),
   (Char.ofNat 1052, Char.ofNat 1084),
   (Char.ofNat 1053, Char.ofNat 1085),
   (Char.ofNat 1054, Char.ofNat 1086),
   (Char.ofNat 1055, Char.ofNat 1087),
   (Char.ofNat 1056, Char.ofNat 1088),
   (Char.ofNat 1057, Char.ofNat 1089),
   (Char.ofNat 1058, Char.ofNat 1090),
   (Char.ofNat 1059, Char.ofNat 1091),
   (Char.ofNat 1060, Char.ofNat 1092),
   (Char.ofNat 1061, Char.ofNat 1093),
   (Char.ofNat 1062, Char.ofNat 1094),
   (Char.ofNat 1063, Char.ofNat 1095),
   (Char.ofNat 1064, Char.ofNat 1096),
   (Char.ofNat 1065, Char.ofNat 1097),
   (Char.ofNat 1066, Char.ofNat 1098),
   (Char.ofNat 1067, Char.ofNat 1099),
   (Char.ofNat 1068, Char.ofNat 1100),
   (Char.ofNat 1069, Char.ofNat 1101),
   (Char.ofNat 1070, Char.ofNat 1102),
   (Char.ofNat 1071, Char.ofNat 1103),
   (Char.ofNat 7680, Char.ofNat 7681),
   (Char.ofNat 7682, Char.ofNat 7683),
   (Char.ofNat 7684, Char.ofNat 7685),
   (Char.ofNat 7686, Char.ofNat 7687),
   (Char.ofNat 7688, Char.ofNat 7689),
   (Char.ofNat 7690, Char.ofNat 7691),
   (Char.ofNat 7692, Char.ofNat 7693),
   (Char.ofNat 7694, Char.ofNat 7695),
   (Char.ofNat 7696, Char.ofNat 7697),
   (Char.ofNat 7698, Char.ofNat 7699),
   (Char.ofNat 7700, Char.ofNat 7701),
   (Char.ofNat 7702, Char.ofNat 7703),
   (Char.ofNat 7704, Char.ofNat 7705),
   (Char.ofNat 7706, Char.ofNat 7707),
   (Char.ofNat 7708, Char.ofNat 7709),
   (Char.ofNat 7710, Char.ofNat 7711),
   (Char.ofNat 7712, Char.ofNat 7713),
   (Char.ofNat 7714, Char.ofNat 7715),
   (Char.ofNat 7716, Char.ofNat 7717),
   (Char.ofNat 7718, Char.ofNat 7719),
   (Char.ofNat 7720, Char.ofNat 7721),
   (Char.ofNat 7722, Char.ofNat 7723),
   (Char.ofNat 7724, Char.ofNat 7725),
   (Char.ofNat 7726, Char.ofNat 7727),
   (Char.ofNat 7728, Char.ofNat 7729),
   (Char.ofNat 7730, Char.ofNat 7731),
   (Char.ofNat 7732, Char.ofNat 7733),
   (Char.ofNat 7734, Char.ofNat 7735),
   (Char.ofNat 7736, Char.ofNat 7737),
   (Char.ofNat 7738, Char.ofNat 7739),
   (Char.ofNat 7740, Char.ofNat 7741),
   (Char.ofNat 7742, Char.ofNat 7743),
   (Char.ofNat 7744, Char.ofNat 7745),
   (Char.ofNat 7746, Char.ofNat 7747),
   (Char.ofNat 7748, Char.ofNat 7749),
   (Char.ofNat 7750, Char.ofNat 7751),
   (Char.ofNat 7752, Char.ofNat 7753),
   (Char.ofNat 7754, Char.ofNat 7755),
   (Char.ofNat 7756, Char.ofNat 7757),
   (Char.ofNat 7758, Char.ofNat 7759),
   (Char.ofNat 7760, Char.ofNat 7761),
   (Char.ofNat 7762, Char.ofNat 7763),
   (Char.ofNat 7764, Char.ofNat 7765),
   (Char.ofNat 7766, Char.ofNat 7767),
   (Char.ofNat 7768, Char.ofNat 7769),
   (Char.ofNat 7770, Char.ofNat 7771),
   (Char.ofNat 7772, Char.ofNat 7773),
   (Char.ofNat 7774, Char.ofNat 7775),
   (Char.ofNat 7776, Char.ofNat 7777),
   (Char.ofNat 7778, Char.ofNat 7779),
   (Char.ofNat 7780, Char.ofNat 7781),
   (Char.ofNat 7782, Char.ofNat 7783),
   (Char.ofNat 7784, Char.ofNat 7785),
   (Char.ofNat 7786, Char.ofNat 7787),
   (Char.ofNat 7788, Char.ofNat 7789),
   (Char.ofNat 7790, Char.ofNat 7791),
   (Char.ofNat 7792, Char.ofNat 7793),
   (Char.ofNat 7794, Char.ofNat 7795),
   (Char.ofNat 7796, Char.ofNat 7797),
   (Char.ofNat 7798, Char.ofNat 7799),
   (Char.ofNat 7800, Char.ofNat 7801),
   (Char.ofNat 7802, Char.ofNat 7803),
   (Char.ofNat 7804, Char.ofNat 7805),
   (Char.ofNat 7806, Char.ofNat 7807),
   (Char.ofNat 7808, Char.ofNat 7809),
   (Char.ofNat 7810, Char.ofNat 7811),
   (Char.ofNat 7812, Char.ofNat 7813),
   (Char.ofNat 7814, Char.ofNat 7815),
   (Char.ofNat 7816, Char.ofNat 7817),
   (Char.ofNat 7818, Char.ofNat 7819),
   (Char.ofNat 7820, Char.ofNat 7821),
   (Char.ofNat 7822, Char.ofNat 7823),
   (Char.ofNat 7824, Char.ofNat 7825),
   (Char.ofNat 7826, Char.ofNat 7827),
   (Char.ofNat 7828, Char.ofNat 7829),
   (Char.ofNat 7838, Char.ofNat 223),
   (Char.ofNat 7840, Char.ofNat 7841),
   (Char.ofNat 7842, Char.ofNat 7843),
   (Char.ofNat 7844, Char.ofNat 7845),
   (Char.ofNat 7846, Char.ofNat 7847),
   (Char.ofNat 7848, Char.ofNat 7849),
   (Char.ofNat 7850, Char.ofNat 7851),
   (Char.ofNat 7852, Char.ofNat 7853),
   (Char.ofNat 7854, Char.ofNat 7855),
   (Char.ofNat 7856, Char.ofNat 7857),
   (Char.ofNat 7858, Char.ofNat 7859),
   (Char.ofNat 7860, Char.ofNat 7861),
   (Char.ofNat 7862, Char.ofNat 7863),
   (Char.ofNat 7864, Char.ofNat 7865),
   (Char.ofNat 7866, Char.ofNat 7867),
   (Char.ofNat 7868, Char.ofNat 7869),
   (Char.ofNat 7870, Char.ofNat 7871),
   (Char.ofNat 7872, Char.ofNat 7873),
   (Char.ofNat 7874, Char.ofNat 7875),
   (Char.ofNat 7876, Char.ofNat 7877),
   (Char.ofNat 7878, Char.ofNat 7879),
   (Char.ofNat 7880, Char.ofNat 7881),
   (Char.ofNat 7882, Char.ofNat 7883),
   (Char.ofNat 7884, Char.ofNat 7885),
   (Char.ofNat 7886, Char.ofNat 7887),
   (Char.ofNat 7888, Char.ofNat 7889),
   (Char.ofNat 7890, Char.ofNat 7891),
   (Char.ofNat 7892, Char.ofNat 7893),
   (Char.ofNat 7894, Char.ofNat 7895),
   (Char.ofNat 7896, Char.ofNat 7897),
   (Char.ofNat 7898, Char.ofNat 7899),
   (Char.ofNat 7900, Char.ofNat 7901),
   (Char.ofNat 7902, Char.ofNat 7903),
   (Char.ofNat 7904, Char.ofNat 7905),
   (Char.ofNat 7906, Char.ofNat 7907),
   (Char.ofNat 7908, Char.ofNat 7909),
   (Char.ofNat 7910, Char.ofNat 7911),
   (Char.ofNat 7912, Char.ofNat 7913),
   (Char.ofNat 7914, Char.ofNat 7915),
   (Char.ofNat 7916, Char.ofNat 7917),
   (Char.ofNat 7918, Char.ofNat 7919),
   (Char.ofNat 7920, Char.ofNat 7921),
   (Char.ofNat 7922, Char.ofNat 7923),
   (Char.ofNat 7924, Char.ofNat 7925),
   (Char.ofNat 7926, Char.ofNat 7927),
   (Char.ofNat 7928, Char.ofNat 7929),
   (Char.ofNat 7930, Char.ofNat 7931),
   (Char.ofNat 7932, Char.ofNat 7933),
   (Char.ofNat 7934, Char.ofNat 7935)]


/-- `ZERO_WIDTH_CHARS` from `text_normalizer.py`. -/
def ZERO_WIDTH_CHARS : List Char :=
  [Char.ofNat 8203, Char.ofNat 8204, Char.ofNat 8205, Char.ofNat 8288, Char.ofNat 65279, Char.ofNat 173, Char.ofNat 847, Char.ofNat 8291, Char.ofNat 8292]

/-- `INVISIBLE_WHITESPACE` from `text_normalizer.py`. -/
def INVISIBLE_WHITESPACE : List Char :=
  [Char.ofNat 160, Char.ofNat 8192, Char.ofNat 8193, Char.ofNat 8194, Char.ofNat 8195, Char.ofNat 8196, Char.ofNat 8197, Char.ofNat 8198, Char.ofNat 8199, Char.ofNat 8200, Char.ofNat 8201, Char.ofNat 8202, Char.ofNat 8239, Char.ofNat 8287, Char.ofNat 12288]

/-- `CYRILLIC_TO_LATIN` from `text_normalizer.py`, keys and values verbatim.  The
file is double-encoded on disk, so these keys are multi-character
strings; the per-character lookup in `normalize_homoglyphs` can
therefore never match them. -/
def CYRILLIC_TO_LATIN : List (List Char × List Char) :=
  [([Char.ofNat 8211, Char.ofNat 8734], [Char.ofNat 97]),
   ([Char.ofNat 8211, Char.ofNat 234], [Char.ofNat 65]),
   ([Char.ofNat 8211, Char.ofNat 181], [Char.ofNat 101]),
   ([Char.ofNat 8211, Char.ofNat 239], [Char.ofNat 69]),
   ([Char.ofNat 8212, Char.ofNat 241], [Char.ofNat 105]),
   ([Char.ofNat 8211, Char.ofNat 220], [Char.ofNat 73]),
   ([Char.ofNat 8211, Char.ofNat 230], [Char.ofNat 111]),
   ([Char.ofNat 8211, Char.ofNat 251], [Char.ofNat 79]),
   ([Char.ofNat 8212, Char.ofNat 196], [Char.ofNat 112]),
   ([Char.ofNat 8211, Char.ofNat 8224], [Char.ofNat 80]),
   ([Char.ofNat 8212, Char.ofNat 197], [Char.ofNat 99]),
   ([Char.ofNat 8211, Char.ofNat 176], [Char.ofNat 67]),
   ([Char.ofNat 8212, Char.ofNat 201], [Char.ofNat 121]),
   ([Char.ofNat 8211, Char.ofNat 163], [Char.ofNat 89]),
   ([Char.ofNat 8212, Char.ofNat 214], [Char.ofNat 120]),
   ([Char.ofNat 8211, Char.ofNat 8226], [Char.ofNat 88]),
   ([Char.ofNat 8211, Char.ofNat 186], [Char.ofNat 109]),
   ([Char.ofNat 8211, Char.ofNat 250], [Char.ofNat 77]),
   ([Char.ofNat 8211, Char.ofNat 937], [Char.ofNat 110]),
   ([Char.ofNat 8211, Char.ofNat 249], [Char.ofNat 78]),
   ([Char.ofNat 8212, Char.ofNat 199], [Char.ofNat 116]),
   ([Char.ofNat 8211, Char.ofNat 162], [Char.ofNat 84]),
   ([Char.ofNat 8211, Char.ofNat 8747], [Char.ofNat 107]),
   ([Char.ofNat 8211, Char.ofNat 246], [Char.ofNat 75]),
   ([Char.ofNat 8211, Char.ofNat 8804], [Char.ofNat 118]),
   ([Char.ofNat 8211, Char.ofNat 237], [Char.ofNat 86]),
   ([Char.ofNat 8212, Char.ofNat 229], []),
   ([Char.ofNat 8212, Char.ofNat 228], [])]

/-- `GREEK_TO_LATIN` from `text_normalizer.py`, keys and values verbatim.  The
file is double-encoded on disk, so these keys are multi-character
strings; the per-character lookup in `normalize_homoglyphs` can
therefore never match them. -/
def GREEK_TO_LATIN : List (List Char × List Char) :=
  [([Char.ofNat 338, Char.ofNat 177], [Char.ofNat 97]),
   ([Char.ofNat 338, Char.ofNat 235], [Char.ofNat 65]),
   ([Char.ofNat 338, Char.ofNat 8804], [Char.ofNat 98]),
   ([Char.ofNat 338, Char.ofNat 237], [Char.ofNat 66]),
   ([Char.ofNat 338, Char.ofNat 181], [Char.ofNat 101]),
   ([Char.ofNat 338, Char.ofNat 239], [Char.ofNat 69]),
   ([Char.ofNat 338, Char.ofNat 8721], [Char.ofNat 110]),
   ([Char.ofNat 338, Char.ofNat 243], [Char.ofNat 72]),
   ([Char.ofNat 338, Char.ofNat 960], [Char.ofNat 105]),
   ([Char.ofNat 338, Char.ofNat 244], [Char.ofNat 73]),
   ([Char.ofNat 338, Char.ofNat 8747], [Char.ofNat 107]),
   ([Char.ofNat 338, Char.ofNat 246], [Char.ofNat 75]),
   ([Char.ofNat 338, Char.ofNat 186], [Char.ofNat 109]),
   ([Char.ofNat 338, Char.ofNat 250], [Char.ofNat 77]),
   ([Char.ofNat 338, Char.ofNat 937], [Char.ofNat 118]),
   ([Char.ofNat 338, Char.ofNat 249], [Char.ofNat 78]),
   ([Char.ofNat 338, Char.ofNat 248], [Char.ofNat 111]),
   ([Char.ofNat 338, Char.ofNat 252], [Char.ofNat 79]),
   ([Char.ofNat 339, Char.ofNat 197], [Char.ofNat 112]),
   ([Char.ofNat 338, Char.ofNat 176], [Char.ofNat 80]),
   ([Char.ofNat 339, Char.ofNat 209], [Char.ofNat 116]),
   ([Char.ofNat 338, Char.ofNat 167], [Char.ofNat 84]),
   ([Char.ofNat 339, Char.ofNat 214], [Char.ofNat 117]),
   ([Char.ofNat 338, Char.ofNat 8226], [Char.ofNat 89]),
   ([Char.ofNat 339, Char.ofNat 225], [Char.ofNat 120]),
   ([Char.ofNat 338, Char.ofNat 223], [Char.ofNat 88])]

/-- `MATH_TO_LATIN` from `text_normalizer.py`, keys and values verbatim.  The
file is double-encoded on disk, so these keys are multi-character
strings; the per-character lookup in `normalize_homoglyphs` can
therefore never match them. -/
def MATH_TO_LATIN : List (List Char × List Char) :=
  [([Char.ofNat 8218, Char.ofNat 209, Char.ofNat 236], [Char.ofNat 108]),
   ([Char.ofNat 8218, Char.ofNat 214, Char.ofNat 8734], [Char.ofNat 105]),
   ([Char.ofNat 8218, Char.ofNat 214, Char.ofNat 177], [Char.ofNat 105, Char.ofNat 105]),
   ([Char.ofNat 8730, Char.ofNat 243], [Char.ofNat 120]),
   ([Char.ofNat 8218, Char.ofNat 224, Char.ofNat 199], [Char.ofNat 100]),
   ([Char.ofNat 8218, Char.ofNat 224, Char.ofNat 251], [Char.ofNat 111, Char.ofNat 111]),
   ([Char.ofNat 8218, Char.ofNat 224, Char.ofNat 180], [Char.ofNat 102]),
   ([Char.ofNat 8218, Char.ofNat 196, Char.ofNat 8224], [Char.ofNat 116]),
   ([Char.ofNat 8218, Char.ofNat 196, Char.ofNat 176], [Char.ofNat 116])]

/-- `LEETSPEAK_MAP` from `text_normalizer.py` (all keys are single
ASCII characters). -/
def LEETSPEAK_MAP : List (Char × List Char) :=
  [(Char.ofNat 48, [Char.ofNat 111]),
   (Char.ofNat 49, [Char.ofNat 105]),
   (Char.ofNat 50, [Char.ofNat 122]),
   (Char.ofNat 51, [Char.ofNat 101]),
   (Char.ofNat 52, [Char.ofNat 97]),
   (Char.ofNat 53, [Char.ofNat 115]),
   (Char.ofNat 54, [Char.ofNat 103]),
   (Char.ofNat 55, [Char.ofNat 116]),
   (Char.ofNat 56, [Char.ofNat 98]),
   (Char.ofNat 57, [Char.ofNat 103]),
   (Char.ofNat 64, [Char.ofNat 97]),
   (Char.ofNat 36, [Char.ofNat 115]),
   (Char.ofNat 33, [Char.ofNat 105]),
   (Char.ofNat 124, [Char.ofNat 105]),
   (Char.ofNat 43, [Char.ofNat 116]),
   (Char.ofNat 40, [Char.ofNat 99]),
   (Char.ofNat 91, [Char.ofNat 99]),
   (Char.ofNat 41, [Char.ofNat 100]),
   (Char.ofNat 123, [Char.ofNat 99]),
   (Char.ofNat 125, [Char.ofNat 100]),
   (Char.ofNat 60, [Char.ofNat 99]),
   (Char.ofNat 62, [Char.ofNat 100]),
   (Char.ofNat 94, [Char.ofNat 97]),
   (Char.ofNat 35, [Char.ofNat 104]),
   (Char.ofNat 37, [Char.ofNat 120]),
   (Char.ofNat 126, [Char.ofNat 110]),
   (Char.ofNat 96, []),
   (Char.ofNat 92, [Char.ofNat 108]),
   (Char.ofNat 47, [Char.ofNat 108])]

/-- `VIETNAMESE_DIACRITICS_MAP` from `text_normalizer.py`, verbatim.
Like the homoglyph tables, its keys are double-encoded multi-character
strings, so the per-character lookup in `remove_vietnamese_diacritics`
never matches them. -/
def VIETNAMESE_DIACRITICS_MAP : List (List Char × List Char) :=
  [([Char.ofNat 8730, Char.ofNat 176], [Char.ofNat 97]),
   ([Char.ofNat 8730, Char.ofNat 8224], [Char.ofNat 97]),
   ([Char.ofNat 183, Char.ofNat 8747, Char.ofNat 163], [Char.ofNat 97]),
   ([Char.ofNat 8730, Char.ofNat 163], [Char.ofNat 97]),
   ([Char.ofNat 183, Char.ofNat 8747, Char.ofNat 176], [Char.ofNat 97]),
   ([Char.ofNat 402, Char.ofNat 201], [Char.ofNat 97]),
   ([Char.ofNat 183, Char.ofNat 8747, Char.ofNat 216], [Char.ofNat 97]),
   ([Char.ofNat 183, Char.ofNat 8747, Char.ofNat 177], [Char.ofNat 97]),
   ([Char.ofNat 183, Char.ofNat 8747, Char.ofNat 8805], [Char.ofNat 97]),
   ([Char.ofNat 183, Char.ofNat 8747, Char.ofNat 181], [Char.ofNat 97]),
   ([Char.ofNat 183, Char.ofNat 8747, Char.ofNat 8721], [Char.ofNat 97]),
   ([Char.ofNat 8730, Char.ofNat 162], [Char.ofNat 97]),
   ([Char.ofNat 183, Char.ofNat 8747, Char.ofNat 8226], [Char.ofNat 97]),
   ([Char.ofNat 183, Char.ofNat 8747, Char.ofNat 223], [Char.ofNat 97]),
   ([Char.ofNat 183, Char.ofNat 8747, Char.ofNat 169], [Char.ofNat 97]),
   ([Char.ofNat 183, Char.ofNat 8747, Char.ofNat 180], [Char.ofNat 97]),
   ([Char.ofNat 183, Char.ofNat 8747, Char.ofNat 8800], [Char.ofNat 97]),
   ([Char.ofNat 8730, Char.ofNat 197], [Char.ofNat 65]),
   ([Char.ofNat 8730, Char.ofNat 196], [Char.ofNat 65]),
   ([Char.ofNat 183, Char.ofNat 8747, Char.ofNat 162], [Char.ofNat 65]),
   ([Char.ofNat 8730, Char.ofNat 201], [Char.ofNat 65]),
   ([Char.ofNat 183, Char.ofNat 8747, Char.ofNat 8224], [Char.ofNat 65]),
   ([Char.ofNat 402, Char.ofNat 199], [Char.ofNat 65]),
   ([Char.ofNat 183, Char.ofNat 8747, Char.ofNat 198], [Char.ofNat 65]),
   ([Char.ofNat 183, Char.ofNat 8747, Char.ofNat 8734], [Char.ofNat 65]),
   ([Char.ofNat 183, Char.ofNat 8747, Char.ofNat 8804], [Char.ofNat 65]),
   ([Char.ofNat 183, Char.ofNat 8747, Char.ofNat 165], [Char.ofNat 65]),
   ([Char.ofNat 183, Char.ofNat 8747, Char.ofNat 8706], [Char.ofNat 65]),
   ([Char.ofNat 8730, Char.ofNat 199], [Char.ofNat 65]),
   ([Char.ofNat 183, Char.ofNat 8747, Char.ofNat 167], [Char.ofNat 65]),
   ([Char.ofNat 183, Char.ofNat 8747, Char.ofNat 182], [Char.ofNat 65]),
   ([Char.ofNat 183, Char.ofNat 8747, Char.ofNat 174], [Char.ofNat 65]),
   ([Char.ofNat 183, Char.ofNat 8747, Char.ofNat 8482], [Char.ofNat 65]),
   ([Char.ofNat 183, Char.ofNat 8747, Char.ofNat 168], [Char.ofNat 65]),
   ([Char.ofNat 8730, Char.ofNat 169], [Char.ofNat 101]),
   ([Char.ofNat 8730, Char.ofNat 174], [Char.ofNat 101]),
   ([Char.ofNat 183, Char.ofNat 8747, Char.ofNat 170], [Char.ofNat 101]),
   ([Char.ofNat 183, Char.ofNat 8747, Char.ofNat 937], [Char.ofNat 101]),
   ([Char.ofNat 183, Char.ofNat 8747, Char.ofNat 960], [Char.ofNat 101]),
   ([Char.ofNat 8730, Char.ofNat 8482], [Char.ofNat 101]),
   ([Char.ofNat 183, Char.ofNat 8747, Char.ofNat 248], [Char.ofNat 101]),
   ([Char.ofNat 183, Char.ofNat 170, Char.ofNat 197], [Char.ofNat 101]),
   ([Char.ofNat 183, Char.ofNat 170, Char.ofNat 201], [Char.ofNat 101]),
   ([Char.ofNat 183, Char.ofNat 170, Char.ofNat 214], [Char.ofNat 101]),
   ([Char.ofNat 183, Char.ofNat 170, Char.ofNat 225], [Char.ofNat 101]),
   ([Char.ofNat 8730, Char.ofNat 226], [Char.ofNat 69]),
   ([Char.ofNat 8730, Char.ofNat 224], [Char.ofNat 69]),
   ([Char.ofNat 183, Char.ofNat 8747, Char.ofNat 8747], [Char.ofNat 69]),
   ([Char.ofNat 183, Char.ofNat 8747, Char.ofNat 186], [Char.ofNat 69]),
   ([Char.ofNat 183, Char.ofNat 8747, Char.ofNat 8719], [Char.ofNat 69]),
   ([Char.ofNat 8730, Char.ofNat 228], [Char.ofNat 69]),
   ([Char.ofNat 183, Char.ofNat 8747, Char.ofNat 230], [Char.ofNat 69]),
   ([Char.ofNat 183, Char.ofNat 170, Char.ofNat 196], [Char.ofNat 69]),
   ([Char.ofNat 183, Char.ofNat 170, Char.ofNat 199], [Char.ofNat 69]),
   ([Char.ofNat 183, Char.ofNat 170, Char.ofNat 209], [Char.ofNat 69]),
   ([Char.ofNat 183, Char.ofNat 170, Char.ofNat 220], [Char.ofNat 69]),
   ([Char.ofNat 8730, Char.ofNat 8800], [Char.ofNat 105]),
   ([Char.ofNat 8730, Char.ofNat 168], [Char.ofNat 105]),
   ([Char.ofNat 183, Char.ofNat 170, Char.ofNat 226], [Char.ofNat 105]),
   ([Char.ofNat 402, Char.ofNat 169], [Char.ofNat 105]),
   ([Char.ofNat 183, Char.ofNat 170, Char.ofNat 227], [Char.ofNat 105]),
   ([Char.ofNat 8730, Char.ofNat 231], [Char.ofNat 73]),
   ([Char.ofNat 8730, Char.ofNat 229], [Char.ofNat 73]),
   ([Char.ofNat 183, Char.ofNat 170, Char.ofNat 224], [Char.ofNat 73]),
   ([Char.ofNat 402, Char.ofNat 174], [Char.ofNat 73]),
   ([Char.ofNat 183, Char.ofNat 170, Char.ofNat 228], [Char.ofNat 73]),
   ([Char.ofNat 8730, Char.ofNat 8805], [Char.ofNat 111]),
   ([Char.ofNat 8730, Char.ofNat 8804], [Char.ofNat 111]),
   ([Char.ofNat 183, Char.ofNat 170, Char.ofNat 232], [Char.ofNat 111]),
   ([Char.ofNat 8730, Char.ofNat 181], [Char.ofNat 111]),
   ([Char.ofNat 183, Char.ofNat 170, Char.ofNat 231], [Char.ofNat 111]),
   ([Char.ofNat 8730, Char.ofNat 165], [Char.ofNat 111]),
   ([Char.ofNat 183, Char.ofNat 170, Char.ofNat 235], [Char.ofNat 111]),
   ([Char.ofNat 183, Char.ofNat 170, Char.ofNat 236], [Char.ofNat 111]),
   ([Char.ofNat 183, Char.ofNat 170, Char.ofNat 239], [Char.ofNat 111]),
   ([Char.ofNat 183, Char.ofNat 170, Char.ofNat 243], [Char.ofNat 111]),
   ([Char.ofNat 183, Char.ofNat 170, Char.ofNat 244], [Char.ofNat 111]),
   ([Char.ofNat 8710, Char.ofNat 176], [Char.ofNat 111]),
   ([Char.ofNat 183, Char.ofNat 170, Char.ofNat 245], [Char.ofNat 111]),
   ([Char.ofNat 183, Char.ofNat 170, Char.ofNat 249], [Char.ofNat 111]),
   ([Char.ofNat 183, Char.ofNat 170, Char.ofNat 252], [Char.ofNat 111]),
   ([Char.ofNat 183, Char.ofNat 170, Char.ofNat 176], [Char.ofNat 111]),
   ([Char.ofNat 183, Char.ofNat 170, Char.ofNat 163], [Char.ofNat 111]),
   ([Char.ofNat 8730, Char.ofNat 236], [Char.ofNat 79]),
   ([Char.ofNat 8730, Char.ofNat 237], [Char.ofNat 79]),
   ([Char.ofNat 183, Char.ofNat 170, Char.ofNat 233], [Char.ofNat 79]),
   ([Char.ofNat 8730, Char.ofNat 239], [Char.ofNat 79]),
   ([Char.ofNat 183, Char.ofNat 170, Char.ofNat 229], [Char.ofNat 79]),
   ([Char.ofNat 8730, Char.ofNat 238], [Char.ofNat 79]),
   ([Char.ofNat 183, Char.ofNat 170, Char.ofNat 234], [Char.ofNat 79]),
   ([Char.ofNat 183, Char.ofNat 170, Char.ofNat 237], [Char.ofNat 79]),
   ([Char.ofNat 183, Char.ofNat 170, Char.ofNat 238], [Char.ofNat 79]),
   ([Char.ofNat 183, Char.ofNat 170, Char.ofNat 241], [Char.ofNat 79]),
   ([Char.ofNat 183, Char.ofNat 170, Char.ofNat 242], [Char.ofNat 79]),
   ([Char.ofNat 8710, Char.ofNat 8224], [Char.ofNat 79]),
   ([Char.ofNat 183, Char.ofNat 170, Char.ofNat 246], [Char.ofNat 79]),
   ([Char.ofNat 183, Char.ofNat 170, Char.ofNat 250], [Char.ofNat 79]),
   ([Char.ofNat 183, Char.ofNat 170, Char.ofNat 251], [Char.ofNat 79]),
   ([Char.ofNat 183, Char.ofNat 170, Char.ofNat 8224], [Char.ofNat 79]),
   ([Char.ofNat 183, Char.ofNat 170, Char.ofNat 162], [Char.ofNat 79]),
   ([Char.ofNat 8730, Char.ofNat 8747], [Char.ofNat 117]),
   ([Char.ofNat 8730, Char.ofNat 960], [Char.ofNat 117]),
   ([Char.ofNat 183, Char.ofNat 170, Char.ofNat 223], [Char.ofNat 117]),
   ([Char.ofNat 8776, Char.ofNat 169], [Char.ofNat 117]),
   ([Char.ofNat 183, Char.ofNat 170, Char.ofNat 8226], [Char.ofNat 117]),
   ([Char.ofNat 8710, Char.ofNat 8734], [Char.ofNat 117]),
   ([Char.ofNat 183, Char.ofNat 170, Char.ofNat 169], [Char.ofNat 117]),
   ([Char.ofNat 183, Char.ofNat 170, Char.ofNat 180], [Char.ofNat 117]),
   ([Char.ofNat 183, Char.ofNat 170, Char.ofNat 8800], [Char.ofNat 117]),
   ([Char.ofNat 183, Char.ofNat 170, Char.ofNat 216], [Char.ofNat 117]),
   ([Char.ofNat 183, Char.ofNat 170, Char.ofNat 177], [Char.ofNat 117]),
   ([Char.ofNat 8730, Char.ofNat 246], [Char.ofNat 85]),
   ([Char.ofNat 8730, Char.ofNat 244], [Char.ofNat 85]),
   ([Char.ofNat 183, Char.ofNat 170, Char.ofNat 182], [Char.ofNat 85]),
   ([Char.ofNat 8776, Char.ofNat 174], [Char.ofNat 85]),
   ([Char.ofNat 183, Char.ofNat 170, Char.ofNat 167], [Char.ofNat 85]),
   ([Char.ofNat 8710, Char.ofNat 216], [Char.ofNat 85]),
   ([Char.ofNat 183, Char.ofNat 170, Char.ofNat 174], [Char.ofNat 85]),
   ([Char.ofNat 183, Char.ofNat 170, Char.ofNat 8482], [Char.ofNat 85]),
   ([Char.ofNat 183, Char.ofNat 170, Char.ofNat 168], [Char.ofNat 85]),
   ([Char.ofNat 183, Char.ofNat 170, Char.ofNat 198], [Char.ofNat 85]),
   ([Char.ofNat 183, Char.ofNat 170, Char.ofNat 8734], [Char.ofNat 85]),
   ([Char.ofNat 8730, Char.ofNat 937], [Char.ofNat 121]),
   ([Char.ofNat 183, Char.ofNat 170, Char.ofNat 8805], [Char.ofNat 121]),
   ([Char.ofNat 183, Char.ofNat 170, Char.ofNat 8721], [Char.ofNat 121]),
   ([Char.ofNat 183, Char.ofNat 170, Char.ofNat 960], [Char.ofNat 121]),
   ([Char.ofNat 183, Char.ofNat 170, Char.ofNat 181], [Char.ofNat 121]),
   ([Char.ofNat 8730, Char.ofNat 249], [Char.ofNat 89]),
   ([Char.ofNat 183, Char.ofNat 170, Char.ofNat 8804], [Char.ofNat 89]),
   ([Char.ofNat 183, Char.ofNat 170, Char.ofNat 8706], [Char.ofNat 89]),
   ([Char.ofNat 183, Char.ofNat 170, Char.ofNat 8719], [Char.ofNat 89]),
   ([Char.ofNat 183, Char.ofNat 170, Char.ofNat 165], [Char.ofNat 89]),
   ([Char.ofNat 402, Char.ofNat 235], [Char.ofNat 100]),
   ([Char.ofNat 402, Char.ofNat 234], [Char.ofNat 68])]

/-- `SEPARATOR_CHARS` from `text_normalizer.py` (a Python set; listed
here sorted).  Multi-character members (double-encoded bullets) can
never equal a single character. -/
def SEPARATOR_CHARS : List (List Char) :=
  [[Char.ofNat 32],
   [Char.ofNat 33],
   [Char.ofNat 34],
   [Char.ofNat 35],
   [Char.ofNat 39],
   [Char.ofNat 40],
   [Char.ofNat 41],
   [Char.ofNat 42],
   [Char.ofNat 43],
   [Char.ofNat 44],
   [Char.ofNat 45],
   [Char.ofNat 46],
   [Char.ofNat 47],
   [Char.ofNat 58],
   [Char.ofNat 59],
   [Char.ofNat 60],
   [Char.ofNat 61],
   [Char.ofNat 62],
   [Char.ofNat 63],
   [Char.ofNat 64],
   [Char.ofNat 91],
   [Char.ofNat 92],
   [Char.ofNat 93],
   [Char.ofNat 94],
   [Char.ofNat 95],
   [Char.ofNat 96],
   [Char.ofNat 123],
   [Char.ofNat 124],
   [Char.ofNat 125],
   [Char.ofNat 126],
   [Char.ofNat 172, Char.ofNat 8721],
   [Char.ofNat 172, Char.ofNat 8734],
   [Char.ofNat 8218, Char.ofNat 196, Char.ofNat 162],
   [Char.ofNat 8218, Char.ofNat 243, Char.ofNat 182],
   [Char.ofNat 8218, Char.ofNat 243, Char.ofNat 227],
   [Char.ofNat 8218, Char.ofNat 243, Char.ofNat 232]]

/-- The characters of the separator class in
`_build_separator_pattern`'s regex. -/
def SEP_PATTERN_CHARS : List Char :=
  [Char.ofNat 46, Char.ofNat 45, Char.ofNat 95, Char.ofNat 42, Char.ofNat 126, Char.ofNat 94, Char.ofNat 39, Char.ofNat 34, Char.ofNat 96, Char.ofNat 124, Char.ofNat 47, Char.ofNat 92, Char.ofNat 43, Char.ofNat 61, Char.ofNat 35, Char.ofNat 64, Char.ofNat 58, Char.ofNat 59, Char.ofNat 44, Char.ofNat 33, Char.ofNat 63, Char.ofNat 40, Char.ofNat 41, Char.ofNat 91, Char.ofNat 93, Char.ofNat 123, Char.ofNat 125, Char.ofNat 60, Char.ofNat 62, Char.ofNat 8218, Char.ofNat 196, Char.ofNat 162, Char.ofNat 172, Char.ofNat 8721, Char.ofNat 172, Char.ofNat 8734, Char.ofNat 8218, Char.ofNat 243, Char.ofNat 182, Char.ofNat 8218, Char.ofNat 243, Char.ofNat 227, Char.ofNat 8218, Char.ofNat 243, Char.ofNat 232]

/-- The characters of the `viet_letters` class beyond `a-zA-Z`
(double-encoded in the file, kept verbatim). -/
def VIET_EXTRA_LETTERS : List Char :=
  [Char.ofNat 8730, Char.ofNat 8224, Char.ofNat 8730, Char.ofNat 176, Char.ofNat 183, Char.ofNat 8747, Char.ofNat 163, Char.ofNat 8730, Char.ofNat 163, Char.ofNat 183, Char.ofNat 8747, Char.ofNat 176, Char.ofNat 402, Char.ofNat 201, Char.ofNat 183, Char.ofNat 8747, Char.ofNat 216, Char.ofNat 183, Char.ofNat 8747, Char.ofNat 177, Char.ofNat 183, Char.ofNat 8747, Char.ofNat 8805, Char.ofNat 183, Char.ofNat 8747, Char.ofNat 181, Char.ofNat 183, Char.ofNat 8747, Char.ofNat 8721, Char.ofNat 8730, Char.ofNat 162, Char.ofNat 183, Char.ofNat 8747, Char.ofNat 8226, Char.ofNat 183, Char.ofNat 8747, Char.ofNat 223, Char.ofNat 183, Char.ofNat 8747, Char.ofNat 169, Char.ofNat 183, Char.ofNat 8747, Char.ofNat 180, Char.ofNat 183, Char.ofNat 8747, Char.ofNat 8800, Char.ofNat 8730, Char.ofNat 174, Char.ofNat 8730, Char.ofNat 169, Char.ofNat 183, Char.ofNat 8747, Char.ofNat 170, Char.ofNat 183, Char.ofNat 8747, Char.ofNat 937, Char.ofNat 183, Char.ofNat 8747, Char.ofNat 960, Char.ofNat 8730, Char.ofNat 8482, Char.ofNat 183, Char.ofNat 8747, Char.ofNat 248, Char.ofNat 183, Char.ofNat 170, Char.ofNat 197, Char.ofNat 183, Char.ofNat 170, Char.ofNat 201, Char.ofNat 183, Char.ofNat 170, Char.ofNat 214, Char.ofNat 183, Char.ofNat 170, Char.ofNat 225, Char.ofNat 8730, Char.ofNat 168, Char.ofNat 8730, Char.ofNat 8800, Char.ofNat 183, Char.ofNat 170, Char.ofNat 226, Char.ofNat 402, Char.ofNat 169, Char.ofNat 183, Char.ofNat 170, Char.ofNat 227, Char.ofNat 8730, Char.ofNat 8804, Char.ofNat 8730, Char.ofNat 8805, Char.ofNat 183, Char.ofNat 170, Char.ofNat 232, Char.ofNat 8730, Char.ofNat 181, Char.ofNat 183, Char.ofNat 170, Char.ofNat 231, Char.ofNat 8730, Char.ofNat 165, Char.ofNat 183, Char.ofNat 170, Char.ofNat 235, Char.ofNat 183, Char.ofNat 170, Char.ofNat 236, Char.ofNat 183, Char.ofNat 170, Char.ofNat 239, Char.ofNat 183, Char.ofNat 170, Char.ofNat 243, Char.ofNat 183, Char.ofNat 170, Char.ofNat 244, Char.ofNat 8710, Char.ofNat 176, Char.ofNat 183, Char.ofNat 170, Char.ofNat 245, Char.ofNat 183, Char.ofNat 170, Char.ofNat 249, Char.ofNat 183, Char.ofNat 170, Char.ofNat 252, Char.ofNat 183, Char.ofNat 170, Char.ofNat 176, Char.ofNat 183, Char.ofNat 170, Char.ofNat 163, Char.ofNat 8730, Char.ofNat 960, Char.ofNat 8730, Char.ofNat 8747, Char.ofNat 183, Char.ofNat 170, Char.ofNat 223, Char.ofNat 8776, Char.ofNat 169, Char.ofNat 183, Char.ofNat 170, Char.ofNat 8226, Char.ofNat 8710, Char.ofNat 8734, Char.ofNat 183, Char.ofNat 170, Char.ofNat 169, Char.ofNat 183, Char.ofNat 170, Char.ofNat 180, Char.ofNat 183, Char.ofNat 170, Char.ofNat 8800, Char.ofNat 183, Char.ofNat 170, Char.ofNat 216, Char.ofNat 183, Char.ofNat 170, Char.ofNat 177, Char.ofNat 183, Char.ofNat 170, Char.ofNat 8805, Char.ofNat 8730, Char.ofNat 937, Char.ofNat 183, Char.ofNat 170, Char.ofNat 8721, Char.ofNat 183, Char.ofNat 170, Char.ofNat 960, Char.ofNat 183, Char.ofNat 170, Char.ofNat 181, Char.ofNat 402, Char.ofNat 235, Char.ofNat 8730, Char.ofNat 196, Char.ofNat 8730, Char.ofNat 197, Char.ofNat 183, Char.ofNat 8747, Char.ofNat 162, Char.ofNat 8730, Char.ofNat 201, Char.ofNat 183, Char.ofNat 8747, Char.ofNat 8224, Char.ofNat 402, Char.ofNat 199, Char.ofNat 183, Char.ofNat 8747, Char.ofNat 198, Char.ofNat 183, Char.ofNat 8747, Char.ofNat 8734, Char.ofNat 183, Char.ofNat 8747, Char.ofNat 8804, Char.ofNat 183, Char.ofNat 8747, Char.ofNat 165, Char.ofNat 183, Char.ofNat 8747, Char.ofNat 8706, Char.ofNat 8730, Char.ofNat 199, Char.ofNat 183, Char.ofNat 8747, Char.ofNat 167, Char.ofNat 183, Char.ofNat 8747, Char.ofNat 182, Char.ofNat 183, Char.ofNat 8747, Char.ofNat 174, Char.ofNat 183, Char.ofNat 8747, Char.ofNat 8482, Char.ofNat 183, Char.ofNat 8747, Char.ofNat 168, Char.ofNat 8730, Char.ofNat 224, Char.ofNat 8730, Char.ofNat 226, Char.ofNat 183, Char.ofNat 8747, Char.ofNat 8747, Char.ofNat 183, Char.ofNat 8747, Char.ofNat 186, Char.ofNat 183, Char.ofNat 8747, Char.ofNat 8719, Char.ofNat 8730, Char.ofNat 228, Char.ofNat 183, Char.ofNat 8747, Char.ofNat 230, Char.ofNat 183, Char.ofNat 170, Char.ofNat 196, Char.ofNat 183, Char.ofNat 170, Char.ofNat 199, Char.ofNat 183, Char.ofNat 170, Char.ofNat 209, Char.ofNat 183, Char.ofNat 170, Char.ofNat 220, Char.ofNat 8730, Char.ofNat 229, Char.ofNat 8730, Char.ofNat 231, Char.ofNat 183, Char.ofNat 170, Char.ofNat 224, Char.ofNat 402, Char.ofNat 174, Char.ofNat 183, Char.ofNat 170, Char.ofNat 228, Char.ofNat 8730, Char.ofNat 237, Char.ofNat 8730, Char.ofNat 236, Char.ofNat 183, Char.ofNat 170, Char.ofNat 233, Char.ofNat 8730, Char.ofNat 239, Char.ofNat 183, Char.ofNat 170, Char.ofNat 229, Char.ofNat 8730, Char.ofNat 238, Char.ofNat 183, Char.ofNat 170, Char.ofNat 234, Char.ofNat 183, Char.ofNat 170, Char.ofNat 237, Char.ofNat 183, Char.ofNat 170, Char.ofNat 238, Char.ofNat 183, Char.ofNat 170, Char.ofNat 241, Char.ofNat 183, Char.ofNat 170, Char.ofNat 242, Char.ofNat 8710, Char.ofNat 8224, Char.ofNat 183, Char.ofNat 170, Char.ofNat 246, Char.ofNat 183, Char.ofNat 170, Char.ofNat 250, Char.ofNat 183, Char.ofNat 170, Char.ofNat 251, Char.ofNat 183, Char.ofNat 170, Char.ofNat 8224, Char.ofNat 183, Char.ofNat 170, Char.ofNat 162, Char.ofNat 8730, Char.ofNat 244, Char.ofNat 8730, Char.ofNat 246, Char.ofNat 183, Char.ofNat 170, Char.ofNat 182, Char.ofNat 8776, Char.ofNat 174, Char.ofNat 183, Char.ofNat 170, Char.ofNat 167, Char.ofNat 8710, Char.ofNat 216, Char.ofNat 183, Char.ofNat 170, Char.ofNat 174, Char.ofNat 183, Char.ofNat 170, Char.ofNat 8482, Char.ofNat 183, Char.ofNat 170, Char.ofNat 168, Char.ofNat 183, Char.ofNat 170, Char.ofNat 198, Char.ofNat 183, Char.ofNat 170, Char.ofNat 8734, Char.ofNat 183, Char.ofNat 170, Char.ofNat 8804, Char.ofNat 8730, Char.ofNat 249, Char.ofNat 183, Char.ofNat 170, Char.ofNat 8706, Char.ofNat 183, Char.ofNat 170, Char.ofNat 8719, Char.ofNat 183, Char.ofNat 170, Char.ofNat 165, Char.ofNat 402, Char.ofNat 234]

/-- The characters beyond `a-zA-Z` of the single-letter class in
`remove_separators_between_letters`'s whitespace-join pattern. -/
def JOIN_EXTRA_LETTERS : List Char :=
  [Char.ofNat 402, Char.ofNat 235, Char.ofNat 402, Char.ofNat 234]



/-- Python `\\s` (and `str.isspace`) for the characters this embedding
handles: ASCII whitespace, the C1/Unicode space characters. -/
def isPySpace (c : Char) : Bool :=
  c.toNat = 32 || (9 ≤ c.toNat && c.toNat ≤ 13) ||
  (28 ≤ c.toNat && c.toNat ≤ 31) || c.toNat = 133 || c.toNat = 160 ||
  c.toNat = 5760 || (8192 ≤ c.toNat && c.toNat ≤ 8202) ||
  c.toNat = 8232 || c.toNat = 8233 || c.toNat = 8239 || c.toNat = 8287 ||
  c.toNat = 12288

/-- `str.lower`, modelled per character: ASCII and fullwidth by
arithmetic, the rest through `PY_LOWER_PAIRS`.  (Python's rare
multi-character lowercasings, e.g. U+0130, are outside the repertoire.) -/
def charLower (c : Char) : Char :=
  if 65 ≤ c.toNat && c.toNat ≤ 90 then Char.ofNat (c.toNat + 32)
  else if 0xff21 ≤ c.toNat && c.toNat ≤ 0xff3a then Char.ofNat (c.toNat + 32)
  else match PY_LOWER_PAIRS.lookup c with
    | some l => l
    | none => c

def lowerStr (s : List Char) : List Char := s.map charLower

/-- `unicodedata.normalize('NFC', s)`.  Over the character repertoire
this development exercises (ASCII and precomposed letters, no combining
marks and no singleton decompositions) every string is NFC-normal, where
NFC is the identity; Unicode composition tables are not modelled. -/
def nfc (s : List Char) : List Char := s

/-- Step 1, `normalize_unicode`: NFC, remove zero-width characters,
map invisible whitespace to a plain space. -/
def normalize_unicode (s : List Char) : List Char :=
  (nfc s).filterMap fun c =>
    if ZERO_WIDTH_CHARS.contains c then none
    else if INVISIBLE_WHITESPACE.contains c then some (Char.ofNat 32)
    else some c

/-- The merged homoglyph dictionary built in `__init__`: Cyrillic, Greek
and math tables (string keys, verbatim) plus the programmatic
fullwidth-to-halfwidth entries `chr(i + 0xff00 - 0x20) -> chr(i)` for
`0x21 <= i <= 0x7e`. -/
def homoglyphLookup (c : Char) : Option (List Char) :=
  match (CYRILLIC_TO_LATIN ++ GREEK_TO_LATIN ++ MATH_TO_LATIN).find?
      (fun kv => kv.1 = [c]) with
  | some kv => some kv.2
  | none =>
    if 0xff01 ≤ c.toNat && c.toNat ≤ 0xff5e then
      some [Char.ofNat (c.toNat - 0xfee0)]
    else none

/-- Step 3, `normalize_homoglyphs`: map each character through the
homoglyph dictionary; a replacement is logged only when non-empty.
Returns the text and whether any replacement was logged. -/
def normalize_homoglyphs (s : List Char) : List Char × Bool :=
  s.foldr
    (fun c acc =>
      match homoglyphLookup c with
      | some v => (v ++ acc.1, (decide (v ≠ []) || acc.2))
      | none => (c :: acc.1, acc.2))
    ([], false)

/-- Step 4, `normalize_leetspeak`: map each character through
`LEETSPEAK_MAP`; conversions are logged only when non-empty. -/
def normalize_leetspeak (s : List Char) : List Char × Bool :=
  s.foldr
    (fun c acc =>
      match LEETSPEAK_MAP.lookup c with
      | some v => (v ++ acc.1, (decide (v ≠ []) || acc.2))
      | none => (c :: acc.1, acc.2))
    ([], false)

/-- Step 5, `collapse_repeated_chars` =
`re.sub(r'(.)\\1{2,}', r'\\1\\1', text)`: every maximal run of three or
more equal characters is shortened to two.  `.` does not match a
newline, so runs of `'\\n'` stay. -/
def collapseAux : List Char → Option (Char × Nat) → List Char
  | [], _ => []
  | c :: rest, st =>
    match st with
    | some (p, k) =>
      if c = p ∧ ¬ c = Char.ofNat 10 then
        if 2 ≤ k then collapseAux rest (some (p, k))
        else c :: collapseAux rest (some (p, k + 1))
      else c :: collapseAux rest (some (c, 1))
    | none => c :: collapseAux rest (some (c, 1))

def collapse_repeated_chars (s : List Char) : List Char := collapseAux s none

/-- The single-letter class `[a-zA-ZđĐ]` of the whitespace-join pattern
(its two non-ASCII characters are the file's double-encoded `đĐ`,
kept verbatim). -/
def letterJ (c : Char) : Bool :=
  (97 ≤ c.toNat && c.toNat ≤ 122) || (65 ≤ c.toNat && c.toNat ≤ 90) ||
  JOIN_EXTRA_LETTERS.contains c

def optLetterJ : Option Char → Bool
  | some c => letterJ c
  | none => false

/-- Whether a list starts with a single-letter-class character (the
negative lookahead of the join pattern). -/
def headLetterJ : List Char → Bool
  | x :: _ => letterJ x
  | [] => false

/-- One `re.sub` pass of the whitespace-join pattern
`(?<![L])(L)(\\s+)(L)(?![L])` with replacement `\\1\\3`: an isolated
single letter, a whitespace run, an isolated single letter — joined.
`prev` is the original character before the scan position (for the
lookbehind); scanning resumes after a match. -/
def joinPassAux (fuel : Nat) (prev : Option Char) (s : List Char) : List Char :=
  match fuel, s with
  | 0, rest => rest
  | _, [] => []
  | f + 1, c :: rest =>
    if letterJ c && !optLetterJ prev then
      match rest.span isPySpace with
      | (ws, l2 :: rest2) =>
        if decide (ws ≠ []) && letterJ l2 && !headLetterJ rest2 then
          c :: l2 :: joinPassAux f (some l2) rest2
        else c :: joinPassAux f (some c) rest
      | (_, []) => c :: joinPassAux f (some c) rest
    else c :: joinPassAux f (some c) rest

/-- The iterated whitespace-join loop of
`remove_separators_between_letters` (`while prev_text != working_text`),
counting passes that changed the text. -/
def joinLoop (fuel : Nat) (s : List Char) (count : Nat) : List Char × Nat :=
  match fuel with
  | 0 => (s, count)
  | f + 1 =>
    let t := joinPassAux (s.length + 1) none s
    if t = s then (s, count) else joinLoop f t (count + 1)

/-- The letter class of `separator_between_letters` (`a-zA-Z` plus the
verbatim characters of the file's Vietnamese letter list). -/
def vietLetter (c : Char) : Bool :=
  (97 ≤ c.toNat && c.toNat ≤ 122) || (65 ≤ c.toNat && c.toNat ≤ 90) ||
  VIET_EXTRA_LETTERS.contains c

def isSepPatternChar (c : Char) : Bool := SEP_PATTERN_CHARS.contains c

/-- One `re.sub` pass of `separator_between_letters` =
`(L)sep+(L)` with replacement `\\1\\2`: a letter, one or more separator
characters, a letter — the separators are dropped.  Scanning resumes
after the second letter. -/
def sepSubPass (fuel : Nat) (s : List Char) : List Char :=
  match fuel, s with
  | 0, rest => rest
  | _, [] => []
  | f + 1, c :: rest =>
    if vietLetter c then
      match rest.span isSepPatternChar with
      | (sep, l2 :: rest2) =>
        if decide (sep ≠ []) && vietLetter l2 then c :: l2 :: sepSubPass f rest2
        else c :: sepSubPass f rest
      | (_, []) => c :: sepSubPass f rest
    else c :: sepSubPass f rest

/-- The per-word `while prev_word != word` loop, counting passes that
changed the word. -/
def sepWordLoop (fuel : Nat) (w : List Char) : List Char × Nat :=
  match fuel with
  | 0 => (w, 0)
  | f + 1 =>
    let w2 := sepSubPass (w.length + 1) w
    if w2 = w then (w, 0)
    else
      let r := sepWordLoop f w2
      (r.1, r.2 + 1)

/-- Membership in the Python set `SEPARATOR_CHARS` (`c in
SEPARATOR_CHARS` for a character `c`: only single-character members can
match). -/
def inSeparatorChars (c : Char) : Bool := SEPARATOR_CHARS.any (fun k => k = [c])

/-- `str.split()` — split on whitespace runs, dropping empty pieces. -/
def pySplit (fuel : Nat) (s : List Char) : List (List Char) :=
  match fuel with
  | 0 => []
  | f + 1 =>
    let s1 := s.dropWhile isPySpace
    match s1.span (fun c => !isPySpace c) with
    | ([], _) => []
    | (w, rest) => w :: pySplit f rest

/-- Step 6, `remove_separators_between_letters`: the iterated
whitespace-join phase, then `str.split()`, then the per-word separator
removal for words of length ≤ 10 that contain a separator character, and
finally `' '.join(...)`.  Returns the text and the total change count. -/
def remove_separators_between_letters (s : List Char) : List Char × Nat :=
  let joined := joinLoop (s.length + 1) s 0
  let words := pySplit (joined.1.length + 1) joined.1
  let processed := words.map fun w =>
    if decide (w.length ≤ 10) && w.any inSeparatorChars then
      sepWordLoop (w.length + 1) w
    else (w, 0)
  (List.intercalate [Char.ofNat 32] (processed.map Prod.fst),
   joined.2 + (processed.map Prod.snd).sum)

/-- One pass of `re.sub(r'\\s+', ' ', text)`. -/
def wsSubAux (fuel : Nat) (s : List Char) : List Char :=
  match fuel, s with
  | 0, rest => rest
  | _, [] => []
  | f + 1, c :: rest =>
    if isPySpace c then Char.ofNat 32 :: wsSubAux f (rest.dropWhile isPySpace)
    else c :: wsSubAux f rest

/-- `str.strip()`: remove leading and trailing whitespace. -/
def pyStrip (s : List Char) : List Char :=
  ((s.dropWhile isPySpace).reverse.dropWhile isPySpace).reverse

/-- Step 7, `normalize_whitespace`. -/
def normalize_whitespace (s : List Char) : List Char :=
  pyStrip (wsSubAux (s.length + 1) s)

/-- Step 8, `remove_vietnamese_diacritics`: per-character lookup in the
(dead, multi-character-keyed) diacritics dictionary, appending the value
string on a hit. -/
def remove_vietnamese_diacritics (s : List Char) : List Char :=
  s.flatMap fun c =>
    match VIETNAMESE_DIACRITICS_MAP.find? (fun kv => kv.1 = [c]) with
    | some kv => kv.2
    | none => [c]

/-- The metadata bag of `create_all_versions` (list-valued entries are
reduced to the flags and counts later layers read). -/
structure NormMeta where
  has_obfuscation : Bool
  homoglyph_logged : Bool
  leetspeak_logged : Bool
  separators_removed : Nat
deriving DecidableEq

/-- The text versions later layers read. -/
structure Versions where
  original : List Char
  fully_normalized : List Char
  no_diacritics : List Char
  metadata : NormMeta
deriving DecidableEq

/-- `create_all_versions`, the Layer A entry point. -/
def create_all_versions (text : List Char) : Versions :=
  let u := normalize_unicode text
  let lc := lowerStr u
  let homo := normalize_homoglyphs lc
  let leet := normalize_leetspeak homo.1
  let collapsed := collapse_repeated_chars leet.1
  let sep := remove_separators_between_letters collapsed
  let fully := normalize_whitespace sep.1
  { original := text
    fully_normalized := fully
    no_diacritics := remove_vietnamese_diacritics fully
    metadata :=
      { has_obfuscation := homo.2 || leet.2 || decide (0 < sep.2)
        homoglyph_logged := homo.2
        leetspeak_logged := leet.2
        separators_removed := sep.2 } }

end TextNormalizer

/-! ## A small regular-expression engine

Executable semantics for the fragment of Python `re` that
`rule_checker.py` uses: literals, character classes, groups,
alternation, greedy `*`/`+`/`?`, lazy `.*?`, `.` (no newline), `\s`,
`\b` and `$`.  The matcher is a fueled backtracking engine over
continuations; `reSearch` tries every start position, like
`re.search`. -/

/-- Regular-expression abstract syntax. -/
inductive RE
  | eps
  | lit (c : Char)
  | cls (cs : List Char)
  | dot
  | wsp
  | seq (a b : RE)
  | alt (a b : RE)
  | star (a : RE)
  | starL (a : RE)
  | opt (a : RE)
  | bound
  | eos

/-- `a+` as `a a*`. -/
def RE.plus (a : RE) : RE := .seq a (.star a)

/-- Pattern size, used to compute a sufficient fuel. -/
def RE.size : RE → Nat
  | .eps | .lit _ | .cls _ | .dot | .wsp | .bound | .eos => 1
  | .seq a b | .alt a b => a.size + b.size + 1
  | .star a | .starL a | .opt a => a.size + 1

/-- Python `\w` with `re.UNICODE` over this development's repertoire:
ASCII alphanumerics and underscore, Latin-1 and extended Latin letters
(incl. precomposed Vietnamese), Greek and Cyrillic letters. -/
def isWordChar (c : Char) : Bool :=
  (48 ≤ c.toNat && c.toNat ≤ 57) || (65 ≤ c.toNat && c.toNat ≤ 90) ||
  (97 ≤ c.toNat && c.toNat ≤ 122) || c.toNat = 95 ||
  (0xc0 ≤ c.toNat && c.toNat ≤ 0x24f && c.toNat ≠ 0xd7 && c.toNat ≠ 0xf7) ||
  (0x370 ≤ c.toNat && c.toNat ≤ 0x4ff) ||
  (0x1e00 ≤ c.toNat && c.toNat ≤ 0x1eff)

def optWordChar : Option Char → Bool
  | some c => isWordChar c
  | none => false

def headWordChar : List Char → Bool
  | c :: _ => isWordChar c
  | [] => false

/-- Backtracking matcher: `prev` is the character before the current
position (for `\b`), `k` the continuation.  Stars re-enter only after
consuming input, which matches Python's behaviour on the non-nullable
star bodies in scope. -/
def reMatch (fuel : Nat) (re : RE) (prev : Option Char) (s : List Char)
    (k : Option Char → List Char → Bool) : Bool :=
  match fuel with
  | 0 => false
  | f + 1 =>
    match re with
    | .eps => k prev s
    | .lit c =>
      match s with
      | [] => false
      | x :: xs => x = c && k (some x) xs
    | .cls cs =>
      match s with
      | [] => false
      | x :: xs => cs.contains x && k (some x) xs
    | .dot =>
      match s with
      | [] => false
      | x :: xs => decide (x ≠ Char.ofNat 10) && k (some x) xs
    | .wsp =>
      match s with
      | [] => false
      | x :: xs => TextNormalizer.isPySpace x && k (some x) xs
    | .seq a b => reMatch f a prev s (fun p2 s2 => reMatch f b p2 s2 k)
    | .alt a b => reMatch f a prev s k || reMatch f b prev s k
    | .star a =>
      reMatch f a prev s (fun p2 s2 =>
        if s2.length < s.length then reMatch f (.star a) p2 s2 k else false)
        || k prev s
    | .starL a =>
      k prev s ||
      reMatch f a prev s (fun p2 s2 =>
        if s2.length < s.length then reMatch f (.starL a) p2 s2 k else false)
    | .opt a => reMatch f a prev s k || k prev s
    | .bound => (optWordChar prev != headWordChar s) && k prev s
    | .eos =>
      (decide (s = []) || decide (s = [Char.ofNat 10])) && k prev s

/-- Try to match at every start position (`re.search` as a Boolean). -/
def reSearchAux (re : RE) (fuel : Nat) : Option Char → List Char → Bool
  | prev, [] => reMatch fuel re prev [] (fun _ _ => true)
  | prev, c :: cs =>
    reMatch fuel re prev (c :: cs) (fun _ _ => true) ||
      reSearchAux re fuel (some c) cs

/-- `re.search(pattern, s) is not None`. -/
def reSearch (re : RE) (s : List Char) : Bool :=
  reSearchAux re ((2 * re.size + 4) * (s.length + 2)) none s

/-- The literal word `w` as a regex. -/
def litWord (w : List Char) : RE :=
  w.foldr (fun c acc => RE.seq (.lit c) acc) .eps

/-- `rf'\b{word}\b'` for a literal word. -/
def wordRE (w : List Char) : RE := .seq .bound (.seq (litWord w) .bound)



/-! ## Layer B — rule/lexicon checker (`moderation-worker/nlp/rule_checker.py`)

Pattern families, safe contexts, targeting pronouns and the check logic,
extracted verbatim from the source (`rule_checker.py` is clean UTF-8,
unlike the normalizer).  Regexes are compiled with `re.IGNORECASE`, but
every searched text is already lowercase (Layer A lowercases and
`check` lowers the original), and every pattern literal is lowercase, so
case-insensitivity is not load-bearing. -/

namespace RuleChecker

/-- One family of `PROFANITY_STEMS` (`rule_checker.py` lines 32-189):
main patterns, optional no-diacritics pattern, severity, labels, safe
contexts and the `context_required` flag. -/
structure ProfFamily where
  key : String
  patterns : List RE
  stripped : Option RE
  severity : String
  labels : List String
  safe_contexts : List (List Char)
  context_required : Bool

/-- One family of `HARASSMENT_PATTERNS` / `HATE_SPEECH_PATTERNS`. -/
structure PatFamily where
  key : String
  patterns : List RE
  severity : String
  labels : List String
  requires_target : Bool


/-- `PROFANITY_STEMS` from `rule_checker.py`, in dict order. -/
def PROFANITY_STEMS : List ProfFamily :=
[
  { key := "dit",
    patterns := [RE.seq RE.bound (RE.seq (litWord (pstr ("đ"))) (RE.seq (RE.cls (pstr ("ịiìíỉĩ"))) (RE.seq (litWord (pstr ("t"))) RE.bound))),
      RE.seq RE.bound (RE.seq (litWord (pstr ("d"))) (RE.seq (RE.cls (pstr ("ịiìíỉĩ"))) (RE.seq (litWord (pstr ("t"))) RE.bound))),
      RE.seq RE.bound (RE.seq (litWord (pstr ("djt"))) RE.bound),
      RE.seq RE.bound (RE.seq (litWord (pstr ("đjt"))) RE.bound),
      RE.seq RE.bound (RE.seq (litWord (pstr ("d1t"))) RE.bound),
      RE.seq RE.bound (RE.seq (litWord (pstr ("đ1t"))) RE.bound),
      RE.seq RE.bound (RE.seq (litWord (pstr ("d"))) (RE.seq (RE.lit (Char.ofNat 33)) (RE.seq (litWord (pstr ("t"))) RE.bound))),
      RE.seq RE.bound (RE.seq (litWord (pstr ("đ"))) (RE.seq (RE.lit (Char.ofNat 33)) (RE.seq (litWord (pstr ("t"))) RE.bound))),
      RE.seq RE.bound (RE.seq (litWord (pstr ("đ"))) (RE.seq (RE.cls (pstr ("ịiìíỉĩ"))) (RE.seq (litWord (pstr ("t"))) (RE.seq (RE.plus RE.wsp) (RE.seq (litWord (pstr ("m"))) (RE.cls (pstr ("ẹeèéẻẽẹ")))))))),
      RE.seq RE.bound (RE.seq (litWord (pstr ("đ"))) (RE.seq (RE.cls (pstr ("ịiìíỉĩ"))) (RE.seq (litWord (pstr ("t"))) (RE.seq (RE.plus RE.wsp) (RE.seq (litWord (pstr ("m"))) (RE.cls (pstr ("áaàảãạ"))))))))],
    stripped := some (RE.seq RE.bound (RE.seq (litWord (pstr ("dit"))) RE.bound)),
    severity := "severe",
    labels := ["toxicity", "profanity"],
    safe_contexts := [],
    context_required := false },
  { key := "dm",
    patterns := [RE.seq RE.bound (RE.seq (litWord (pstr ("đ"))) (RE.seq (RE.plus (RE.lit (Char.ofNat 109))) RE.bound)),
      RE.seq RE.bound (RE.seq (litWord (pstr ("d"))) (RE.seq (RE.plus (RE.lit (Char.ofNat 109))) RE.bound)),
      RE.seq RE.bound (RE.seq (litWord (pstr ("đc"))) (RE.seq (RE.plus (RE.lit (Char.ofNat 109))) RE.bound)),
      RE.seq RE.bound (RE.seq (litWord (pstr ("dc"))) (RE.seq (RE.plus (RE.lit (Char.ofNat 109))) RE.bound)),
      RE.seq RE.bound (RE.seq (litWord (pstr ("đk"))) (RE.seq (RE.plus (RE.lit (Char.ofNat 109))) RE.bound)),
      RE.seq RE.bound (RE.seq (litWord (pstr ("dk"))) (RE.seq (RE.plus (RE.lit (Char.ofNat 109))) RE.bound)),
      RE.seq RE.bound (RE.seq (litWord (pstr ("đ"))) (RE.seq (RE.cls (pstr ("ụu"))) (RE.seq (RE.star RE.wsp) (RE.seq (litWord (pstr ("m"))) (RE.cls (pstr ("áaẹe"))))))),
      RE.seq RE.bound (RE.seq (litWord (pstr ("d"))) (RE.seq (RE.cls (pstr ("ịi"))) (RE.seq (litWord (pstr ("t"))) (RE.seq (RE.star RE.wsp) (RE.seq (litWord (pstr ("m"))) (RE.cls (pstr ("áaẹe"))))))))],
    stripped := some (RE.seq RE.bound (RE.seq (litWord (pstr ("d"))) (RE.seq (RE.plus (RE.lit (Char.ofNat 109))) RE.bound))),
    severity := "severe",
    labels := ["toxicity", "profanity"],
    safe_contexts := [],
    context_required := false },
  { key := "lon",
    patterns := [RE.seq RE.bound (RE.seq (litWord (pstr ("l"))) (RE.seq (RE.cls (pstr ("ồôoòóỏõọ"))) (RE.seq (litWord (pstr ("n"))) RE.bound))),
      RE.seq RE.bound (RE.seq (litWord (pstr ("l0n"))) RE.bound),
      RE.seq RE.bound (RE.seq (litWord (pstr ("1on"))) RE.bound),
      RE.seq RE.bound (RE.seq (litWord (pstr ("10n"))) RE.bound)],
    stripped := some (RE.seq RE.bound (RE.seq (litWord (pstr ("lon"))) RE.bound)),
    severity := "severe",
    labels := ["toxicity", "profanity"],
    safe_contexts := [pstr ("lon bia"),
      pstr ("bia lon"),
      pstr ("lon nước"),
      pstr ("nước lon"),
      pstr ("lon coca"),
      pstr ("lon pepsi"),
      pstr ("lon 7up"),
      pstr ("lon redbull"),
      pstr ("hài lòng"),
      pstr ("vui lòng"),
      pstr ("lòng tin"),
      pstr ("lòng tốt"),
      pstr ("tấm lòng"),
      pstr ("toàn lòng"),
      pstr ("xin lòng")],
    context_required := false },
  { key := "cac",
    patterns := [RE.seq RE.bound (RE.seq (litWord (pstr ("c"))) (RE.seq (RE.cls (pstr ("ặăắằẳẵạa"))) (RE.seq (litWord (pstr ("c"))) RE.bound))),
      RE.seq RE.bound (RE.seq (litWord (pstr ("c"))) (RE.seq (RE.lit (Char.ofNat 64)) (RE.seq (litWord (pstr ("c"))) RE.bound))),
      RE.seq RE.bound (RE.seq (litWord (pstr ("c4c"))) RE.bound),
      RE.seq RE.bound (RE.seq (litWord (pstr ("kac"))) RE.bound),
      RE.seq RE.bound (RE.seq (litWord (pstr ("k"))) (RE.seq (RE.cls (pstr ("ặăa"))) (RE.seq (litWord (pstr ("c"))) RE.bound)))],
    stripped := some (RE.seq RE.bound (RE.seq (litWord (pstr ("cac"))) RE.bound)),
    severity := "severe",
    labels := ["toxicity", "profanity"],
    safe_contexts := [pstr ("các bạn"),
      pstr ("các anh"),
      pstr ("các chị"),
      pstr ("các em"),
      pstr ("các bác"),
      pstr ("các ông"),
      pstr ("các bà"),
      pstr ("các cháu"),
      pstr ("các con"),
      pstr ("một cách"),
      pstr ("bằng cách"),
      pstr ("theo cách"),
      pstr ("có cách"),
      pstr ("các loại"),
      pstr ("các kiểu"),
      pstr ("các dạng")],
    context_required := false },
  { key := "vcl",
    patterns := [RE.seq RE.bound (RE.seq (litWord (pstr ("vcl"))) RE.bound),
      RE.seq RE.bound (RE.seq (litWord (pstr ("vkl"))) RE.bound),
      RE.seq RE.bound (RE.seq (litWord (pstr ("vl"))) RE.bound),
      RE.seq RE.bound (RE.seq (litWord (pstr ("vãi"))) (RE.seq (RE.star RE.wsp) (RE.seq (litWord (pstr ("l"))) (RE.seq (RE.cls (pstr ("ồôo"))) (litWord (pstr ("n"))))))),
      RE.seq RE.bound (RE.seq (litWord (pstr ("vai"))) (RE.seq (RE.star RE.wsp) (RE.seq (litWord (pstr ("lon"))) RE.bound))),
      RE.seq RE.bound (RE.seq (litWord (pstr ("vờ"))) (RE.seq (RE.star RE.wsp) (RE.seq (litWord (pstr ("cờ"))) (RE.seq (RE.star RE.wsp) (RE.seq (litWord (pstr ("lờ"))) RE.bound)))))],
    stripped := some (RE.seq RE.bound (RE.seq (RE.alt (RE.alt (litWord (pstr ("vcl"))) (litWord (pstr ("vkl")))) (litWord (pstr ("vl")))) RE.bound)),
    severity := "severe",
    labels := ["toxicity", "profanity"],
    safe_contexts := [],
    context_required := false },
  { key := "cc",
    patterns := [RE.seq RE.bound (RE.seq (litWord (pstr ("cc"))) RE.bound),
      RE.seq RE.bound (RE.seq (litWord (pstr ("cờ"))) (RE.seq (RE.star RE.wsp) (RE.seq (litWord (pstr ("cờ"))) RE.bound)))],
    stripped := some (RE.seq RE.bound (RE.seq (litWord (pstr ("cc"))) RE.bound)),
    severity := "moderate",
    labels := ["toxicity", "profanity"],
    safe_contexts := [],
    context_required := false },
  { key := "clm",
    patterns := [RE.seq RE.bound (RE.seq (litWord (pstr ("clm"))) RE.bound),
      RE.seq RE.bound (RE.seq (litWord (pstr ("ctm"))) RE.bound),
      RE.seq RE.bound (RE.seq (litWord (pstr ("cmm"))) RE.bound)],
    stripped := some (RE.seq RE.bound (RE.seq (RE.alt (RE.alt (litWord (pstr ("clm"))) (litWord (pstr ("ctm")))) (litWord (pstr ("cmm")))) RE.bound)),
    severity := "severe",
    labels := ["toxicity", "profanity"],
    safe_contexts := [],
    context_required := false },
  { key := "ngu",
    patterns := [RE.seq RE.bound (RE.seq (litWord (pstr ("ngu"))) (RE.seq (RE.plus RE.wsp) (RE.alt (RE.alt (RE.alt (RE.alt (RE.alt (RE.alt (RE.alt (RE.alt (litWord (pstr ("như"))) (litWord (pstr ("thế")))) (litWord (pstr ("thí")))) (litWord (pstr ("vậy")))) (litWord (pstr ("quá")))) (litWord (pstr ("vãi")))) (litWord (pstr ("vcl")))) (litWord (pstr ("vl")))) (litWord (pstr ("vkl")))))),
      RE.seq RE.bound (RE.seq (litWord (pstr ("ngu"))) (RE.seq (RE.plus RE.wsp) (RE.seq (litWord (pstr ("ngốc"))) RE.bound))),
      RE.seq RE.bound (RE.seq (litWord (pstr ("ngu"))) (RE.seq (RE.plus RE.wsp) (RE.seq (litWord (pstr ("si"))) RE.bound))),
      RE.seq RE.bound (RE.seq (litWord (pstr ("ngu"))) (RE.seq (RE.plus RE.wsp) (RE.seq (litWord (pstr ("xuẩn"))) RE.bound)))],
    stripped := some (RE.seq RE.bound (RE.seq (litWord (pstr ("ngu"))) (RE.seq (RE.plus RE.wsp) (RE.seq (RE.alt (RE.alt (RE.alt (RE.alt (RE.alt (RE.alt (RE.alt (litWord (pstr ("nhu"))) (litWord (pstr ("the")))) (litWord (pstr ("thi")))) (litWord (pstr ("vay")))) (litWord (pstr ("qua")))) (litWord (pstr ("ngoc")))) (litWord (pstr ("si")))) (litWord (pstr ("xuan")))) RE.bound)))),
    severity := "moderate",
    labels := ["insult"],
    safe_contexts := [pstr ("ngủ"),
      pstr ("nguồn"),
      pstr ("người"),
      pstr ("nguyên"),
      pstr ("nguyễn"),
      pstr ("nguội"),
      pstr ("ngước"),
      pstr ("ngựa"),
      pstr ("ngứa"),
      pstr ("ngư dân")],
    context_required := true },
  { key := "brain_insults",
    patterns := [RE.seq RE.bound (RE.seq (litWord (pstr ("não"))) (RE.seq (RE.plus RE.wsp) (RE.seq (RE.alt (RE.alt (RE.alt (RE.alt (RE.alt (RE.alt (litWord (pstr ("lợn"))) (litWord (pstr ("chó")))) (litWord (pstr ("bò")))) (litWord (pstr ("gà")))) (RE.seq (litWord (pstr ("cá"))) (RE.seq (RE.star RE.wsp) (litWord (pstr ("vàng")))))) (litWord (pstr ("gối")))) (litWord (pstr ("đất")))) RE.bound))),
      RE.seq RE.bound (RE.seq (litWord (pstr ("óc"))) (RE.seq (RE.plus RE.wsp) (RE.seq (RE.alt (RE.alt (RE.alt (RE.alt (RE.alt (RE.alt (RE.alt (litWord (pstr ("lợn"))) (litWord (pstr ("chó")))) (litWord (pstr ("bò")))) (litWord (pstr ("gà")))) (RE.seq (litWord (pstr ("cá"))) (RE.seq (RE.star RE.wsp) (litWord (pstr ("vàng")))))) (litWord (pstr ("gối")))) (litWord (pstr ("đất")))) (litWord (pstr ("chim")))) RE.bound))),
      RE.seq RE.bound (RE.seq (litWord (pstr ("đầu"))) (RE.seq (RE.plus RE.wsp) (RE.seq (RE.alt (RE.alt (RE.alt (RE.alt (RE.alt (RE.alt (RE.alt (litWord (pstr ("lợn"))) (litWord (pstr ("chó")))) (litWord (pstr ("bò")))) (litWord (pstr ("gà")))) (litWord (pstr ("gối")))) (litWord (pstr ("đất")))) (litWord (pstr ("bò")))) (litWord (pstr ("cá")))) RE.bound)))],
    stripped := none,
    severity := "moderate",
    labels := ["insult"],
    safe_contexts := [],
    context_required := false },
  { key := "obfuscated_insults",
    patterns := [],
    stripped := none,
    severity := "moderate",
    labels := ["insult", "obfuscation_bypass"],
    safe_contexts := [],
    context_required := false }
]

/-- `PROFANITY_STEMS['obfuscated_insults']['standalone_words']`. -/
def STANDALONE_WORDS : List (List Char) :=
  [pstr ("ngu"), pstr ("ngốc"), pstr ("điên"), pstr ("khùng"), pstr ("dở")]

/-- `HARASSMENT_PATTERNS` from `rule_checker.py`, in dict order. -/
def HARASSMENT_PATTERNS : List PatFamily :=
[
  { key := "appearance_attack",
    patterns := [RE.seq RE.bound (RE.seq (RE.alt (RE.alt (RE.alt (RE.alt (RE.alt (litWord (pstr ("mày"))) (litWord (pstr ("mi")))) (litWord (pstr ("nó")))) (RE.seq (litWord (pstr ("đứa"))) (RE.seq (RE.star RE.wsp) (litWord (pstr ("này")))))) (RE.seq (litWord (pstr ("thằng"))) (RE.seq (RE.star RE.wsp) (litWord (pstr ("này")))))) (RE.seq (litWord (pstr ("con"))) (RE.seq (RE.star RE.wsp) (litWord (pstr ("này")))))) (RE.seq (RE.plus RE.wsp) (RE.alt (RE.alt (RE.alt (RE.alt (RE.alt (RE.alt (litWord (pstr ("xấu"))) (litWord (pstr ("xí")))) (litWord (pstr ("bẩn")))) (litWord (pstr ("ghê")))) (litWord (pstr ("kinh")))) (litWord (pstr ("tởm")))) (litWord (pstr ("gớm")))))),
      RE.seq RE.bound (RE.seq (RE.alt (RE.alt (RE.alt (RE.alt (litWord (pstr ("mặt"))) (litWord (pstr ("da")))) (litWord (pstr ("người")))) (litWord (pstr ("thân")))) (litWord (pstr ("body")))) (RE.seq (RE.plus RE.wsp) (RE.seq (RE.alt (RE.alt (litWord (pstr ("mày"))) (litWord (pstr ("mi")))) (litWord (pstr ("nó")))) (RE.seq (RE.plus RE.wsp) (RE.alt (RE.alt (RE.alt (litWord (pstr ("xấu"))) (litWord (pstr ("bẩn")))) (litWord (pstr ("ghê")))) (litWord (pstr ("kinh")))))))),
      RE.seq RE.bound (RE.seq (RE.alt (RE.alt (RE.alt (RE.alt (RE.alt (litWord (pstr ("xấu"))) (litWord (pstr ("xí")))) (litWord (pstr ("bẩn")))) (litWord (pstr ("ghê")))) (litWord (pstr ("kinh")))) (litWord (pstr ("tởm")))) (RE.seq (RE.plus RE.wsp) (RE.alt (RE.alt (RE.alt (RE.alt (litWord (pstr ("quá"))) (litWord (pstr ("thế")))) (litWord (pstr ("vậy")))) (RE.seq (litWord (pstr ("quá"))) (RE.seq (RE.star RE.wsp) (litWord (pstr ("trời")))))) (litWord (pstr ("vãi")))))),
      RE.seq RE.bound (RE.seq (litWord (pstr ("nhìn"))) (RE.seq (RE.plus RE.wsp) (RE.seq (RE.alt (RE.alt (RE.alt (litWord (pstr ("mặt"))) (litWord (pstr ("mày")))) (litWord (pstr ("mi")))) (litWord (pstr ("nó")))) (RE.seq (RE.starL RE.dot) (RE.alt (RE.alt (RE.alt (RE.alt (RE.seq (litWord (pstr ("muốn"))) (RE.seq (RE.star RE.wsp) (litWord (pstr ("nôn"))))) (RE.seq (litWord (pstr ("ghê"))) (RE.seq (RE.star RE.wsp) (litWord (pstr ("tởm")))))) (RE.seq (litWord (pstr ("kinh"))) (RE.seq (RE.star RE.wsp) (litWord (pstr ("tởm")))))) (litWord (pstr ("ớn")))) (litWord (pstr ("ghét")))))))),
      RE.seq RE.bound (RE.seq (RE.opt (RE.seq (litWord (pstr ("sao"))) (RE.plus RE.wsp))) (RE.seq (RE.alt (RE.alt (litWord (pstr ("mày"))) (litWord (pstr ("mi")))) (litWord (pstr ("nó")))) (RE.seq (RE.plus RE.wsp) (RE.alt (RE.alt (RE.alt (RE.alt (RE.alt (litWord (pstr ("xấu"))) (litWord (pstr ("xí")))) (litWord (pstr ("bẩn")))) (litWord (pstr ("hôi")))) (litWord (pstr ("thối")))) (litWord (pstr ("dơ")))))))],
    severity := "moderate",
    labels := ["harassment", "body_shaming"],
    requires_target := true },
  { key := "personal_attack",
    patterns := [RE.seq RE.bound (RE.seq (litWord (pstr ("đồ"))) (RE.seq (RE.plus RE.wsp) (RE.alt (RE.alt (RE.alt (RE.alt (RE.alt (RE.alt (RE.alt (RE.alt (RE.alt (litWord (pstr ("ngu"))) (litWord (pstr ("ngốc")))) (litWord (pstr ("khốn")))) (litWord (pstr ("chó")))) (litWord (pstr ("lợn")))) (litWord (pstr ("bò")))) (RE.seq (litWord (pstr ("súc"))) (RE.seq (RE.star RE.wsp) (litWord (pstr ("vật")))))) (litWord (pstr ("rác")))) (RE.seq (litWord (pstr ("vô"))) (RE.seq (RE.star RE.wsp) (litWord (pstr ("dụng")))))) (litWord (pstr ("hèn")))))),
      RE.seq RE.bound (RE.seq (RE.alt (litWord (pstr ("thằng"))) (litWord (pstr ("con")))) (RE.seq (RE.plus RE.wsp) (RE.alt (RE.alt (RE.alt (RE.alt (RE.alt (RE.alt (RE.alt (RE.alt (litWord (pstr ("ngu"))) (litWord (pstr ("ngốc")))) (litWord (pstr ("khốn")))) (litWord (pstr ("chó")))) (litWord (pstr ("lợn")))) (litWord (pstr ("điên")))) (litWord (pstr ("khùng")))) (litWord (pstr ("rồ")))) (litWord (pstr ("dở")))))),
      RE.seq RE.bound (RE.seq (RE.alt (litWord (pstr ("thằng"))) (litWord (pstr ("con")))) (RE.seq (RE.plus RE.wsp) (RE.seq (RE.alt (RE.alt (litWord (pstr ("này"))) (litWord (pstr ("đó")))) (litWord (pstr ("kia")))) (RE.seq (RE.plus RE.wsp) (RE.alt (RE.alt (RE.alt (litWord (pstr ("ngu"))) (litWord (pstr ("ngốc")))) (litWord (pstr ("khốn")))) (litWord (pstr ("điên")))))))),
      RE.seq RE.bound (RE.seq (RE.alt (RE.alt (litWord (pstr ("mày"))) (litWord (pstr ("mi")))) (litWord (pstr ("nó")))) (RE.seq (RE.plus RE.wsp) (RE.seq (RE.opt (RE.seq (litWord (pstr ("là"))) (RE.plus RE.wsp))) (RE.seq (RE.alt (RE.alt (litWord (pstr ("đồ"))) (litWord (pstr ("thằng")))) (litWord (pstr ("con")))) (RE.seq (RE.plus RE.wsp) (RE.alt (RE.alt (RE.alt (litWord (pstr ("ngu"))) (litWord (pstr ("ngốc")))) (litWord (pstr ("khốn")))) (litWord (pstr ("chó")))))))))],
    severity := "moderate",
    labels := ["harassment", "insult"],
    requires_target := false },
  { key := "contempt",
    patterns := [RE.seq RE.bound (RE.seq (RE.alt (RE.alt (RE.alt (RE.alt (RE.alt (litWord (pstr ("ghét"))) (litWord (pstr ("khinh")))) (litWord (pstr ("tởm")))) (litWord (pstr ("gớm")))) (litWord (pstr ("ớn")))) (litWord (pstr ("chán")))) (RE.seq (RE.plus RE.wsp) (RE.alt (RE.alt (RE.alt (litWord (pstr ("mày"))) (litWord (pstr ("mi")))) (litWord (pstr ("nó")))) (RE.seq (litWord (pstr ("bọn"))) (RE.seq (RE.star RE.wsp) (litWord (pstr ("này")))))))),
      RE.seq RE.bound (RE.seq (RE.alt (RE.alt (litWord (pstr ("mày"))) (litWord (pstr ("mi")))) (litWord (pstr ("nó")))) (RE.seq (RE.starL RE.dot) (RE.alt (RE.alt (RE.seq (litWord (pstr ("đáng"))) (RE.seq (RE.star RE.wsp) (litWord (pstr ("khinh"))))) (RE.seq (litWord (pstr ("đáng"))) (RE.seq (RE.star RE.wsp) (litWord (pstr ("ghét")))))) (RE.seq (litWord (pstr ("đáng"))) (RE.seq (RE.star RE.wsp) (litWord (pstr ("chết")))))))),
      RE.seq RE.bound (RE.seq (RE.alt (RE.alt (RE.seq (litWord (pstr ("vô"))) (RE.seq (RE.star RE.wsp) (litWord (pstr ("dụng"))))) (RE.seq (litWord (pstr ("vô"))) (RE.seq (RE.star RE.wsp) (RE.seq (litWord (pstr ("giá"))) (RE.seq (RE.star RE.wsp) (litWord (pstr ("trị")))))))) (RE.seq (litWord (pstr ("không"))) (RE.seq (RE.star RE.wsp) (RE.seq (litWord (pstr ("ra"))) (RE.seq (RE.star RE.wsp) (litWord (pstr ("gì")))))))) (RE.seq (RE.star RE.wsp) RE.eos))],
    severity := "moderate",
    labels := ["harassment"],
    requires_target := true }
]

/-- `HATE_SPEECH_PATTERNS` from `rule_checker.py`, in dict order
(no family carries `additional_context`). -/
def HATE_SPEECH_PATTERNS : List PatFamily :=
[
  { key := "racism",
    patterns := [RE.seq RE.bound (RE.seq (RE.alt (RE.alt (RE.alt (RE.alt (litWord (pstr ("bọn"))) (litWord (pstr ("lũ")))) (litWord (pstr ("đám")))) (litWord (pstr ("thằng")))) (litWord (pstr ("con")))) (RE.seq (RE.star RE.wsp) (RE.seq (RE.alt (RE.alt (RE.seq (litWord (pstr ("da"))) (RE.seq (RE.star RE.wsp) (litWord (pstr ("đen"))))) (litWord (pstr ("đen")))) (litWord (pstr ("mọi")))) RE.bound))),
      RE.seq RE.bound (RE.seq (RE.alt (RE.seq (litWord (pstr ("da"))) (RE.seq (RE.star RE.wsp) (litWord (pstr ("đen"))))) (RE.seq (litWord (pstr ("người"))) (RE.seq (RE.star RE.wsp) (litWord (pstr ("đen")))))) (RE.seq (RE.starL RE.dot) (RE.alt (RE.alt (RE.alt (RE.alt (RE.alt (litWord (pstr ("bẩn"))) (litWord (pstr ("thối")))) (litWord (pstr ("xấu")))) (litWord (pstr ("ghê")))) (litWord (pstr ("cút")))) (RE.seq (litWord (pstr ("về"))) (RE.seq (RE.star RE.wsp) (litWord (pstr ("nước")))))))),
      RE.seq RE.bound (RE.seq (RE.alt (RE.alt (RE.alt (litWord (pstr ("cút"))) (litWord (pstr ("biến")))) (RE.seq (litWord (pstr ("đi"))) (RE.seq (RE.star RE.wsp) (RE.seq (litWord (pstr ("chỗ"))) (RE.seq (RE.star RE.wsp) (litWord (pstr ("khác")))))))) (RE.seq (litWord (pstr ("về"))) (RE.seq (RE.star RE.wsp) (litWord (pstr ("nước")))))) (RE.seq (RE.starL RE.dot) (RE.alt (RE.seq (litWord (pstr ("da"))) (RE.seq (RE.star RE.wsp) (litWord (pstr ("đen"))))) (litWord (pstr ("đen")))))),
      RE.seq RE.bound (RE.seq (litWord (pstr ("khỉ"))) (RE.seq (RE.star RE.wsp) (RE.seq (litWord (pstr ("đen"))) RE.bound))),
      RE.seq RE.bound (RE.seq (litWord (pstr ("mọi"))) (RE.seq (RE.star RE.wsp) (RE.seq (litWord (pstr ("đen"))) RE.bound))),
      RE.seq RE.bound (RE.seq (RE.alt (RE.alt (RE.alt (litWord (pstr ("bọn"))) (litWord (pstr ("lũ")))) (litWord (pstr ("đám")))) (litWord (pstr ("thằng")))) (RE.seq (RE.star RE.wsp) (RE.seq (litWord (pstr ("tàu"))) (RE.seq (RE.star RE.wsp) (RE.seq (RE.opt (RE.alt (RE.alt (litWord (pstr ("khựa"))) (litWord (pstr ("cộng")))) (litWord (pstr ("giặc"))))) RE.bound))))),
      RE.seq RE.bound (RE.seq (litWord (pstr ("tàu"))) (RE.seq (RE.star RE.wsp) (RE.seq (RE.alt (RE.alt (litWord (pstr ("khựa"))) (litWord (pstr ("cộng")))) (litWord (pstr ("giặc")))) RE.bound))),
      RE.seq RE.bound (RE.seq (RE.alt (litWord (pstr ("chink"))) (RE.seq (litWord (pstr ("ching"))) (RE.seq (RE.star RE.wsp) (litWord (pstr ("chong")))))) RE.bound),
      RE.seq RE.bound (RE.seq (RE.alt (RE.alt (litWord (pstr ("bọn"))) (litWord (pstr ("lũ")))) (litWord (pstr ("đám")))) (RE.seq (RE.star RE.wsp) (RE.seq (RE.alt (RE.alt (litWord (pstr ("mọi"))) (RE.seq (litWord (pstr ("thổ"))) (RE.seq (RE.star RE.wsp) (litWord (pstr ("dân")))))) (RE.seq (litWord (pstr ("rừng"))) (RE.seq (RE.star RE.wsp) (litWord (pstr ("núi")))))) RE.bound))),
      RE.seq RE.bound (RE.seq (RE.alt (RE.seq (litWord (pstr ("dân"))) (RE.seq (RE.star RE.wsp) (litWord (pstr ("tộc"))))) (RE.seq (litWord (pstr ("miền"))) (RE.seq (RE.star RE.wsp) (litWord (pstr ("núi")))))) (RE.seq (RE.starL RE.dot) (RE.alt (RE.alt (RE.alt (litWord (pstr ("ngu"))) (litWord (pstr ("dốt")))) (RE.seq (litWord (pstr ("lạc"))) (RE.seq (RE.star RE.wsp) (litWord (pstr ("hậu")))))) (litWord (pstr ("bẩn"))))))],
    severity := "severe",
    labels := ["hate", "racism"],
    requires_target := false },
  { key := "lgbtq_hate",
    patterns := [RE.seq RE.bound (RE.seq (RE.alt (RE.alt (RE.alt (litWord (pstr ("đồ"))) (litWord (pstr ("thằng")))) (litWord (pstr ("con")))) (litWord (pstr ("bọn")))) (RE.seq (RE.star RE.wsp) (RE.alt (RE.alt (RE.alt (RE.alt (litWord (pstr ("gay"))) (RE.seq (litWord (pstr ("đồng"))) (RE.seq (RE.star RE.wsp) (litWord (pstr ("tính")))))) (RE.seq (litWord (pstr ("pê"))) (RE.seq (RE.star RE.wsp) (litWord (pstr ("đê")))))) (RE.seq (litWord (pstr ("bê"))) (RE.seq (RE.star RE.wsp) (litWord (pstr ("đê")))))) (litWord (pstr ("les")))))),
      RE.seq RE.bound (RE.seq (RE.alt (litWord (pstr ("gay"))) (RE.seq (litWord (pstr ("đồng"))) (RE.seq (RE.star RE.wsp) (litWord (pstr ("tính")))))) (RE.seq (RE.starL RE.dot) (RE.alt (RE.alt (RE.alt (RE.alt (litWord (pstr ("bệnh"))) (RE.seq (litWord (pstr ("đáng"))) (RE.seq (RE.star RE.wsp) (litWord (pstr ("chết")))))) (litWord (pstr ("tởm")))) (litWord (pstr ("ghê")))) (litWord (pstr ("kinh")))))),
      RE.seq RE.bound (RE.seq (RE.alt (RE.alt (RE.seq (litWord (pstr ("tiêu"))) (RE.seq (RE.star RE.wsp) (litWord (pstr ("diệt"))))) (litWord (pstr ("giết")))) (litWord (pstr ("đánh")))) (RE.seq (RE.star RE.wsp) (RE.alt (RE.alt (litWord (pstr ("gay"))) (RE.seq (litWord (pstr ("đồng"))) (RE.seq (RE.star RE.wsp) (litWord (pstr ("tính")))))) (RE.seq (litWord (pstr ("pê"))) (RE.seq (RE.star RE.wsp) (litWord (pstr ("đê"))))))))],
    severity := "severe",
    labels := ["hate", "lgbtq_discrimination"],
    requires_target := false },
  { key := "xenophobia",
    patterns := [RE.seq RE.bound (RE.seq (RE.alt (RE.alt (RE.alt (litWord (pstr ("cút"))) (litWord (pstr ("biến")))) (litWord (pstr ("đi")))) (litWord (pstr ("về")))) (RE.seq (RE.star RE.wsp) (RE.alt (RE.alt (RE.seq (litWord (pstr ("về"))) (RE.seq (RE.star RE.wsp) (litWord (pstr ("nước"))))) (RE.seq (litWord (pstr ("đi"))) (RE.seq (RE.star RE.wsp) (RE.seq (litWord (pstr ("chỗ"))) (RE.seq (RE.star RE.wsp) (litWord (pstr ("khác")))))))) (RE.seq (litWord (pstr ("khỏi"))) (RE.seq (RE.star RE.wsp) (litWord (pstr ("đây")))))))),
      RE.seq RE.bound (RE.seq (RE.alt (RE.alt (RE.seq (litWord (pstr ("ngoại"))) (RE.seq (RE.star RE.wsp) (litWord (pstr ("quốc"))))) (RE.seq (litWord (pstr ("người"))) (RE.seq (RE.star RE.wsp) (RE.seq (litWord (pstr ("nước"))) (RE.seq (RE.star RE.wsp) (litWord (pstr ("ngoài")))))))) (RE.seq (litWord (pstr ("dân"))) (RE.seq (RE.star RE.wsp) (RE.seq (litWord (pstr ("nhập"))) (RE.seq (RE.star RE.wsp) (litWord (pstr ("cư")))))))) (RE.seq (RE.starL RE.dot) (RE.alt (RE.alt (RE.alt (litWord (pstr ("cút"))) (litWord (pstr ("biến")))) (litWord (pstr ("về")))) (litWord (pstr ("bẩn")))))),
      RE.seq RE.bound (RE.seq (RE.alt (litWord (pstr ("biến"))) (litWord (pstr ("cút")))) (RE.seq (RE.plus RE.wsp) (RE.seq (RE.opt (RE.seq (litWord (pstr ("đi"))) (RE.plus RE.wsp))) (RE.alt (RE.alt (RE.seq (litWord (pstr ("người"))) (RE.seq (RE.star RE.wsp) (RE.seq (litWord (pstr ("nước"))) (RE.seq (RE.star RE.wsp) (litWord (pstr ("ngoài"))))))) (RE.seq (litWord (pstr ("ngoại"))) (RE.seq (RE.star RE.wsp) (litWord (pstr ("quốc")))))) (RE.seq (litWord (pstr ("dân"))) (RE.seq (RE.star RE.wsp) (RE.seq (litWord (pstr ("nhập"))) (RE.seq (RE.star RE.wsp) (litWord (pstr ("cư")))))))))))],
    severity := "moderate",
    labels := ["hate", "xenophobia"],
    requires_target := false }
]

/-- `PERSONAL_ATTACK_INDICATORS['target_pronouns']`. -/
def TARGET_PRONOUNS : List (List Char) :=
  [pstr ("mày"), pstr ("mi"), pstr ("ngươi"), pstr ("bay"), pstr ("chúng mày"), pstr ("tụi mày"), pstr ("bọn mày")]

/-- `PERSONAL_ATTACK_INDICATORS['third_person']`. -/
def THIRD_PERSON : List (List Char) :=
  [pstr ("nó"), pstr ("thằng này"), pstr ("con này"), pstr ("đứa này"), pstr ("thằng kia"), pstr ("con kia")]

/-- The `severe_expressions` list inside `check` (`rule_checker.py`
lines 581-587). -/
def SEVERE_EXPRESSIONS : List (List Char) :=
  [pstr ("muốn nôn"),
   pstr ("ghê tởm"),
   pstr ("kinh tởm"),
   pstr ("kinh khủng"),
   pstr ("ghê ghớm"),
   pstr ("đáng chết"),
   pstr ("chết đi"),
   pstr ("biến đi"),
   pstr ("cút đi"),
   pstr ("xấu kinh"),
   pstr ("xấu ghê"),
   pstr ("xấu tởm"),
   pstr ("xấu khủng"),
   pstr ("béo như lợn"),
   pstr ("gầy như que"),
   pstr ("đen như than"),
   [Char.ofNat 109, Char.ofNat 7863, Char.ofNat 116, Char.ofNat 32, Char.ofNat 110, Char.ofNat 104, Char.ofNat 432, Char.ofNat 32, Char.ofNat 108, Char.ofNat 42],
   [Char.ofNat 109, Char.ofNat 7863, Char.ofNat 116, Char.ofNat 32, Char.ofNat 108, Char.ofNat 42],
   pstr ("mặt như đít")]

/-- Python's `in` on strings: substring test. -/
def isSubstring (needle hay : List Char) : Bool :=
  match hay with
  | [] => needle.isEmpty
  | _ :: t => needle.isPrefixOf hay || isSubstring needle t

/-- One rule finding (the fields later decisions read; the matched text
only feeds the reasoning string, which is not modelled). -/
structure Finding where
  ftype : String
  key : String
  severity : String
  labels : List String
deriving DecidableEq

/-- `_has_target_pronoun`: the lowered text contains a second-person or
third-person targeting pronoun as a substring. -/
def has_target_pronoun (text : List Char) : Bool :=
  let tl := TextNormalizer.lowerStr text
  TARGET_PRONOUNS.any (fun p => isSubstring p tl) ||
    THIRD_PERSON.any (fun p => isSubstring p tl)

/-- `_is_in_safe_context`: some safe-context phrase occurs in the lowered
text. -/
def is_in_safe_context (text : List Char) (ctxs : List (List Char)) : Bool :=
  let tl := TextNormalizer.lowerStr text
  ctxs.any (fun c => isSubstring c tl)

/-- `_check_profanity` (`rule_checker.py` lines 395-452): per family in
dict order — skip when a safe context matches; families with
`context_required` only try their main patterns; otherwise try the main
patterns, then (when the last appended finding is not this family's) the
no-diacritics pattern guarded by the safe contexts again. -/
def check_profanity (text textNoDia : List Char) : List Finding :=
  let textL := TextNormalizer.lowerStr text
  PROFANITY_STEMS.foldl
    (fun findings fam =>
      if decide (fam.safe_contexts ≠ []) && is_in_safe_context text fam.safe_contexts then
        findings
      else if fam.context_required then
        if fam.patterns.any (fun p => reSearch p textL) then
          findings ++ [⟨"profanity", fam.key, fam.severity, fam.labels⟩]
        else findings
      else
        let findings1 :=
          if fam.patterns.any (fun p => reSearch p textL) then
            findings ++ [⟨"profanity", fam.key, fam.severity, fam.labels⟩]
          else findings
        if findings1.isEmpty || ((findings1.getLast?.map (·.key)) != some fam.key) then
          match fam.stripped with
          | some sp =>
            if reSearch sp textNoDia && !is_in_safe_context text fam.safe_contexts then
              findings1 ++ [⟨"profanity", fam.key, fam.severity, fam.labels⟩]
            else findings1
          | none => findings1
        else findings1)
    []

/-- `_check_harassment` (lines 454-478): families gated by
`requires_target`, first matching pattern appends one finding. -/
def check_harassment (text : List Char) : List Finding :=
  let textL := TextNormalizer.lowerStr text
  HARASSMENT_PATTERNS.foldl
    (fun findings fam =>
      if fam.requires_target && !has_target_pronoun text then findings
      else if fam.patterns.any (fun p => reSearch p textL) then
        findings ++ [⟨"harassment", fam.key, fam.severity, fam.labels⟩]
      else findings)
    []

/-- `_check_hate_speech` (lines 480-507); no family carries
`additional_context`, so there is no gate. -/
def check_hate_speech (text : List Char) : List Finding :=
  let textL := TextNormalizer.lowerStr text
  HATE_SPEECH_PATTERNS.foldl
    (fun findings fam =>
      if fam.patterns.any (fun p => reSearch p textL) then
        findings ++ [⟨"hate_speech", fam.key, fam.severity, fam.labels⟩]
      else findings)
    []

/-- The special obfuscated-insult check of `check` (lines 549-565): when
Layer A reported obfuscation, the first standalone insult word that
occurs whole-word in the normalized text but not in the lowered original
yields one `moderate` finding labelled `insult, obfuscation_bypass`. -/
def obf_insult_findings (hasObf : Bool) (normalized textLower : List Char) :
    List Finding :=
  if hasObf then
    match STANDALONE_WORDS.find?
        (fun w => reSearch (wordRE w) normalized &&
          !(reSearch (wordRE w) textLower)) with
    | some _ =>
      [⟨"obfuscated_insult", "obfuscated_insults", "moderate",
        ["insult", "obfuscation_bypass"]⟩]
    | none => []
  else []

/-- Layer B's verdict (`check`'s return dict; the reasoning string is
not modelled, and Python's unordered label `set` is modelled as
`List.dedup` of the concatenation — theorems only use membership). -/
structure RuleResult where
  action : String
  labels : List String
  confidence : ℚ
  findings : List Finding
  has_obfuscation : Bool
  escalated : Bool
deriving DecidableEq

/-- The escalation test of `check` (lines 576-591): body-shaming or
harassment findings together with a severe expression in the lowered
original text. -/
def escalates (all : List Finding) (textLower : List Char) : Bool :=
  (all.any (fun f => f.labels.contains "body_shaming") ||
      all.any (fun f => f.ftype == "harassment")) &&
    SEVERE_EXPRESSIONS.any (fun e => isSubstring e textLower)

/-- The decision tail of `check` (lines 567-636): no findings is clean;
hate, severe or escalated findings reject with confidence 0.95; anything
else reviews with confidence 0.80. -/
def check_result (all : List Finding) (textLower : List Char)
    (hasObf : Bool) : Option RuleResult :=
  if all.isEmpty then none
  else if all.any (fun f => f.ftype == "hate_speech") ||
      all.any (fun f => f.severity == "severe") || escalates all textLower then
    some { action := "reject", labels := (all.flatMap (·.labels)).dedup,
           confidence := 95 / 100, findings := all, has_obfuscation := hasObf,
           escalated := escalates all textLower }
  else
    some { action := "review", labels := (all.flatMap (·.labels)).dedup,
           confidence := 80 / 100, findings := all, has_obfuscation := hasObf,
           escalated := escalates all textLower }

/-- `EnhancedRuleChecker.check` (lines 509-636), with the three text
versions and metadata supplied by Layer A (as the pipeline does). -/
def check (text normalized noDia : List Char)
    (meta : TextNormalizer.NormMeta) : Option RuleResult :=
  check_result
    (((check_profanity normalized noDia ++ check_harassment text) ++
        check_hate_speech text) ++
      obf_insult_findings meta.has_obfuscation normalized
        (TextNormalizer.lowerStr text))
    (TextNormalizer.lowerStr text) meta.has_obfuscation

end RuleChecker

/-! ## Final combination and classifier entry points
(`nlp/moderation_pipeline.py`, `nlp/inference_multitask.py`) -/

/-- A classifier result as the pipeline passes it around (the fields the
combination logic reads; `ml_agrees` and `rule_attached` model the
`ml_agrees` / `rule_findings` keys the combiner adds). -/
structure ModResult where
  action : String
  labels : List String
  confidence : ℚ
  method : String
  ml_agrees : Bool := false
  rule_attached : Bool := false
deriving DecidableEq

/-- The confidence boost applied to a rule reject when the ML result
agrees (`_combine_results` lines 269-274). -/
def mlAgreesBump (r : ModResult) (mlR : Option ModResult) : ModResult :=
  match mlR with
  | some m =>
    if m.action == "reject" || m.action == "review" then
      { r with confidence := min (99 / 100) (r.confidence + 5 / 100),
               ml_agrees := true }
    else r
  | none => r

/-- `ThreeLayerModerationPipeline._combine_results`
(`moderation_pipeline.py` lines 243-298), faithful to its priority
chain: rule reject, then **ML reject**, then rule review, then ML
review, then allowed. -/
def combine_results (ruleR mlR : Option ModResult) : ModResult :=
  match ruleR, mlR with
  | none, none =>
    { action := "allowed", labels := [], confidence := 9 / 10, method := "none" }
  | _, _ =>
    if (ruleR.map (·.action)) == some "reject" then
      match ruleR with
      | some r => mlAgreesBump r mlR
      | none => { action := "allowed", labels := [], confidence := 9 / 10,
                  method := "none" }
    else if (mlR.map (·.action)) == some "reject" then
      match mlR with
      | some m => { m with rule_attached := ruleR.isSome }
      | none => { action := "allowed", labels := [], confidence := 9 / 10,
                  method := "none" }
    else if (ruleR.map (·.action)) == some "review" then
      match ruleR with
      | some r => r
      | none => { action := "allowed", labels := [], confidence := 9 / 10,
                  method := "none" }
    else if (mlR.map (·.action)) == some "review" then
      match mlR with
      | some m => m
      | none => { action := "allowed", labels := [], confidence := 9 / 10,
                  method := "none" }
    else
      { action := "allowed", labels := (mlR.map (·.labels)).getD [],
        confidence := 85 / 100, method := "combined" }

/-- The conversion of a Layer B verdict into the pipeline's result
format (`check`'s dict used directly; `method` is
`rule_based_enhanced`). -/
def ruleToMod (r : RuleChecker.RuleResult) : ModResult :=
  { action := r.action, labels := r.labels, confidence := r.confidence,
    method := "rule_based_enhanced" }

/-- `ThreeLayerModerationPipeline.predict` with `text_model = None` and
`use_ml_model = False` (the configuration of the module's own test):
Layer A, Layer B, the obfuscation/hate short-circuit for rule rejects,
then `_combine_results` with no ML result. -/
def pipeline_predict_rule_only (text : List Char) : ModResult :=
  let v := TextNormalizer.create_all_versions text
  let ruleR := (RuleChecker.check v.original v.fully_normalized
    v.no_diacritics v.metadata).map ruleToMod
  match ruleR with
  | some r =>
    if r.action == "reject" &&
        (v.metadata.has_obfuscation || r.labels.contains "hate") then r
    else combine_results (some r) none
  | none => combine_results none none

/-- `MultiTaskModerationInference._enhanced_rule_check`
(`inference_multitask.py` lines 269-335): Layer A then Layer B; a
verdict is mapped to the standard format keeping action, labels and
confidence (`method` is `three_layer_pipeline`). -/
def enhanced_rule_check (text : List Char) : Option ModResult :=
  let v := TextNormalizer.create_all_versions text
  (RuleChecker.check v.original v.fully_normalized v.no_diacritics
    v.metadata).map fun r =>
    { action := r.action, labels := r.labels, confidence := r.confidence,
      method := "three_layer_pipeline" }

/-- `MultiTaskModerationInference.predict` steps 1-2
(`inference_multitask.py` lines 337-365 and 548-552): the three-layer
rule check short-circuits when it produces any result; otherwise the
legacy rule fallback (variant detector, PII, word lists — abstracted as
a parameter) and finally the ML model (abstracted as a parameter). -/
def multitask_predict (legacy : List Char → Option ModResult)
    (ml : List Char → ModResult) (text : List Char) : ModResult :=
  match enhanced_rule_check text with
  | some r => r
  | none =>
    match legacy text with
    | some r => r
    | none => ml text



/-!
### C5 — final combination priority

The claim: whenever Layer B produces a decision (reject **or review**),
it is final, and an ML reject never overrides a Layer-B review.  That
holds for the worker's classifier (`MultiTaskModerationInference.predict`
returns any rule result before consulting the model), but it is false
for `ThreeLayerModerationPipeline._combine_results`, whose documented
priority is rule-reject > ML-reject > rule-review > ML-review.
-/

/-- A concrete Layer-B review verdict. -/
def c5RuleReview : ModResult :=
  { action := "review", labels := ["insult"], confidence := 8 / 10,
    method := "rule_based_enhanced" }

/-- A concrete ML reject verdict. -/
def c5MlReject : ModResult :=
  { action := "reject", labels := ["toxicity"], confidence := 9 / 10,
    method := "ml_model" }

/-- C5 counterexample: in `_combine_results` an ML reject overrides a
Layer-B review — the combined action is the ML result's `reject`, not
the rule layer's `review`. -/
theorem c5_counterexample :
    combine_results (some c5RuleReview) (some c5MlReject) =
      { c5MlReject with rule_attached := true } ∧
    (combine_results (some c5RuleReview) (some c5MlReject)).action ≠
      c5RuleReview.action := by
  refine ⟨rfl, by decide⟩

/-- C5 (amended): in the worker's classifier
(`MultiTaskModerationInference.predict`), a Layer-B result — reject or
review — short-circuits and Layer C never runs; but in
`ThreeLayerModerationPipeline._combine_results` the priority is
rule-reject, then ML-reject, then rule-review, then ML-review, so there
an ML reject does override a Layer-B review. -/
theorem c5_amended_combination_priority (legacy : List Char → Option ModResult)
    (ml : List Char → ModResult) (text : List Char) (r : ModResult)
    (ruleR mlR : Option ModResult) :
    (enhanced_rule_check text = some r → multitask_predict legacy ml text = r) ∧
    (∀ rr, ruleR = some rr → rr.action = "reject" →
      combine_results ruleR mlR = mlAgreesBump rr mlR) ∧
    (∀ rr mm, ruleR = some rr → rr.action ≠ "reject" →
      mlR = some mm → mm.action = "reject" →
      combine_results ruleR mlR = { mm with rule_attached := true }) ∧
    (∀ rr, ruleR = some rr → rr.action ≠ "reject" → rr.action = "review" →
      (mlR.map (·.action)) ≠ some "reject" →
      combine_results ruleR mlR = rr) := by
  refine ⟨?_, ?_, ?_, ?_⟩
  · intro h
    unfold multitask_predict
    rw [h]
  · rintro rr rfl hact
    unfold combine_results
    simp [hact]
  · rintro rr mm rfl hact rfl hmact
    unfold combine_results
    simp [hact, hmact]
  · rintro rr rfl hact hrev hml
    unfold combine_results
    have h1 : (some rr.action == some "reject") = false := by simp [hact]
    have h2 : ((mlR.map (·.action)) == some "reject") = false := by
      simpa [beq_eq_false_iff_ne] using hml
    simp [h1, h2, hrev]

set_option maxRecDepth 100000 in
/-- Witness for the amended C5 theorem: on the concrete input `vcl` the
rule layer rejects and the classifier returns that verdict, untouched by
the ML parameter. -/
theorem c5_amended_witness :
    multitask_predict (fun _ => none) (fun _ => c5MlReject) (pstr "vcl") =
      { action := "reject", labels := ["toxicity", "profanity"],
        confidence := 95 / 100, method := "three_layer_pipeline" } :=
  (c5_amended_combination_priority (fun _ => none) (fun _ => c5MlReject)
      (pstr "vcl") _ none none).1 rfl

/-!
### C6 — the obfuscation-bypass rule
-/

/-- The finding appended by the obfuscation-bypass rule
(`rule_checker.py` lines 558-564). -/
def obfFinding : RuleChecker.Finding :=
  ⟨"obfuscated_insult", "obfuscated_insults", "moderate",
   ["insult", "obfuscation_bypass"]⟩

theorem obf_insult_findings_of_witness (normalized textLower : List Char)
    (hex : ∃ w ∈ RuleChecker.STANDALONE_WORDS,
      reSearch (wordRE w) normalized = true ∧
      reSearch (wordRE w) textLower = false) :
    RuleChecker.obf_insult_findings true normalized textLower = [obfFinding] := by
  unfold RuleChecker.obf_insult_findings
  have hsome : (RuleChecker.STANDALONE_WORDS.find?
      (fun w => reSearch (wordRE w) normalized &&
        !(reSearch (wordRE w) textLower))).isSome := by
    rw [List.find?_isSome]
    obtain ⟨w, hw, h1, h2⟩ := hex
    exact ⟨w, hw, by simp [h1, h2]⟩
  obtain ⟨x, hx⟩ := Option.isSome_iff_exists.mp hsome
  rw [hx]
  simp [obfFinding]

theorem check_result_shape (all : List RuleChecker.Finding)
    (textLower : List Char) (hasObf : Bool) (hne : all.isEmpty = false) :
    ∃ rr, RuleChecker.check_result all textLower hasObf = some rr ∧
      rr.findings = all ∧
      rr.labels = (all.flatMap (·.labels)).dedup ∧
      rr.has_obfuscation = hasObf := by
  unfold RuleChecker.check_result
  rw [if_neg (by simp [hne])]
  split
  · exact ⟨_, rfl, rfl, rfl, rfl⟩
  · exact ⟨_, rfl, rfl, rfl, rfl⟩

set_option maxRecDepth 400000 in
/-- C6: (i) for every text, normalized text, no-diacritics text and
metadata with `has_obfuscation = true` such that some standalone insult
stem occurs whole-word (`\b..\b`) in the normalized text but not in the
lowered original, Layer B's `check` returns a verdict whose findings
contain the `obfuscated_insult` finding with severity `moderate` and
labels `insult, obfuscation_bypass`, and `obfuscation_bypass` is among
the verdict's labels; (ii) `classify("n.g.u")` (the pipeline with the
rule layer only) yields action `review` ∈ {reject, review} with
`obfuscation_bypass` among the labels; (iii) `classify("người")` yields
action `allowed`. -/
theorem c6_obfuscation_bypass :
    (∀ (text normalized noDia : List Char) (meta : TextNormalizer.NormMeta),
      meta.has_obfuscation = true →
      (∃ w ∈ RuleChecker.STANDALONE_WORDS,
        reSearch (wordRE w) normalized = true ∧
        reSearch (wordRE w) (TextNormalizer.lowerStr text) = false) →
      ∃ rr, RuleChecker.check text normalized noDia meta = some rr ∧
        obfFinding ∈ rr.findings ∧
        obfFinding.severity = "moderate" ∧
        "obfuscation_bypass" ∈ rr.labels) ∧
    ((pipeline_predict_rule_only (pstr "n.g.u")).action = "review" ∧
      "obfuscation_bypass" ∈ (pipeline_predict_rule_only (pstr "n.g.u")).labels) ∧
    ((pipeline_predict_rule_only (pstr "người")).action = "allowed") := by
  refine ⟨?_, ⟨by decide, by decide⟩, by decide⟩
  intro text normalized noDia meta hobf hex
  unfold RuleChecker.check
  rw [hobf, obf_insult_findings_of_witness normalized
    (TextNormalizer.lowerStr text) hex]
  have hne : ((((RuleChecker.check_profanity normalized noDia ++
      RuleChecker.check_harassment text) ++
      RuleChecker.check_hate_speech text) ++ [obfFinding]).isEmpty) = false := by
    simp [List.isEmpty_eq_true]
  obtain ⟨rr, hrr, hfind, hlab, -⟩ := check_result_shape _ _ _ hne
  refine ⟨rr, hrr, ?_, rfl, ?_⟩
  · rw [hfind]
    exact List.mem_append_right _ (by simp)
  · rw [hlab, List.mem_dedup, List.mem_flatMap]
    refine ⟨obfFinding, List.mem_append_right _ (by simp), by simp [obfFinding]⟩

set_option maxRecDepth 400000 in
/-- Witness for C6's general part at the concrete Layer A output of
`n.g.u`. -/
theorem c6_obfuscation_bypass_witness :
    ∃ rr, RuleChecker.check (pstr "n.g.u") (pstr "ngu") (pstr "ngu")
        { has_obfuscation := true, homoglyph_logged := false,
          leetspeak_logged := false, separators_removed := 2 } = some rr ∧
      obfFinding ∈ rr.findings ∧
      obfFinding.severity = "moderate" ∧
      "obfuscation_bypass" ∈ rr.labels :=
  c6_obfuscation_bypass.1 (pstr "n.g.u") (pstr "ngu") (pstr "ngu") _ rfl
    ⟨pstr "ngu", by decide, by decide, by decide⟩



/-!
### C9 — normalization idempotence

Counterexample machinery and the amended theorem's character-level
infrastructure: every pipeline stage except repeat-collapse and
separator removal fixes a normalized string, so idempotence holds
exactly when those two stages fix the output. -/

namespace TextNormalizer

end TextNormalizer

end VietCMC
